import Mathlib

/-!
# Student feedback system: the backend of `server.js`

A shallow embedding of the Express/Mongoose backend: the stored documents
(`User`, `Feedback`, `AuditLog`), the route handlers as pure functions from
the stored state and a request to a response and a new stored state, and the
properties of the lockout counter, the access checks, the anonymity redaction
and the ticket status workflow.

Conventions of the embedding.

* A handler runs against `Db`, the three collections as lists in insertion
  order, and returns `Response × Db`.
* `Env.now` is the clock value a request observes (`Date.now()`, `new Date()`),
  in milliseconds; one request observes one value.
* `Env.auditOk` says whether `AuditLog.create` succeeds; `logAction` catches
  its failure.  Other storage faults are not modelled: a read or write of
  `users` or `feedbacks` fails only through a cast or a schema validator.
* `bcrypt.compare` and the JWT settings are parameters (`Config`); so are
  `bcrypt.hash`, the reading of a token string into its claims and signing key,
  and the `ObjectId` generated for a new document, where a handler uses them.
* The rate limiters (`limiter`, `loginLimiter`) and the body-cleaning
  middleware are library code in front of the handlers; a handler is given the
  request as it reaches it.  Where a property fixes the body as the client
  sends it, the `xss()` middleware of `app.use(xss())` stands in front of the
  handler (`xssClean`, `postFeedback`).
* Strings of enumerated fields (`role`, `status`, `priority`, `category`) are
  kept as strings, as the schema stores them; the enumerations are validators.
* Request fields are a string or absent (`Option String`); a value is truthy
  when it is present and non-empty.
* `save()` re-validates a document.  Stored documents passed the validators
  when they were created, so a `save()` is decided by the paths the handler
  writes: login writes `loginAttempts`, `lockUntil`, `lastLogin` (no
  validator); the status update writes `status` (the enumeration), `responses`
  and `resolvedAt` (no validator); the password change writes `password`
  (`required`, `minlength`).  `Feedback.create` runs every validator of the
  schema on the new document.
* Fields the handlers never write (`attachments`, `assignedTo`, `tags`, the
  `_id` of a response entry) are left out.
* A query without a sort returns documents in stored order (`findOne` the
  first match); a sort keeps the stored order among documents equal under the
  sort key.  The unique indexes on `studentId` and `email` refuse an insert
  that repeats a stored value.
-/

namespace FeedbackSystem

/-! ## Stored documents -/

/-- Milliseconds since the epoch. -/
abbrev Time := Nat

/-- An `ObjectId`. -/
abbrev ObjectId := Nat

/-- A document of `userSchema` (with `timestamps: true`). -/
structure User where
  _id : ObjectId
  studentId : String
  password : String
  name : String
  email : String
  phone : Option String
  role : String
  isActive : Bool
  lastLogin : Option Time
  loginAttempts : Nat
  lockUntil : Option Time
  createdAt : Time
  updatedAt : Time
deriving DecidableEq, Repr

/-- An element of `feedbackSchema.responses`. -/
structure ResponseEntry where
  content : String
  adminId : ObjectId
  adminName : String
  createdAt : Time
deriving DecidableEq, Repr

/-- A document of `feedbackSchema` (with `timestamps: true`).  `status` is
optional: assigning `undefined` to the path unsets it. -/
structure Feedback where
  _id : ObjectId
  user : ObjectId
  category : String
  title : String
  content : String
  priority : String
  status : Option String
  isAnonymous : Bool
  responses : List ResponseEntry
  resolvedAt : Option Time
  createdAt : Time
  updatedAt : Time
deriving DecidableEq, Repr

/-- A document of `auditLogSchema`.  `details` is the `Mixed` payload as a
list of fields. -/
structure AuditLog where
  user : ObjectId
  action : String
  resource : String
  resourceId : ObjectId
  details : List (String × Option String)
  ip : String
  userAgent : Option String
  createdAt : Time
deriving DecidableEq, Repr

/-- The three collections. -/
structure Db where
  users : List User
  feedbacks : List Feedback
  auditLogs : List AuditLog
deriving DecidableEq, Repr

/-! ## Requests, responses, environment -/

/-- The constants of `config` the handlers use, and `bcrypt.compare`
(candidate first, stored hash second). -/
structure Config where
  jwtSecret : String
  jwtExpire : Nat
  bcryptCompare : String → String → Bool

/-- What a single request observes of the outside world. -/
structure Env where
  now : Time
  auditOk : Bool
deriving DecidableEq, Repr

/-- The request data `logAction` reads: `req.ip` and the `User-Agent` header. -/
structure ReqInfo where
  ip : String
  userAgent : Option String
deriving DecidableEq, Repr

/-- The result of `jwt.sign`: the signed claims `id`, `role`, the issue and
expiry times in seconds, and the key that signed them. -/
structure Token where
  id : ObjectId
  role : String
  iat : Nat
  exp : Nat
  key : String
deriving DecidableEq, Repr

/-- The `user` object of the login response. -/
structure PublicProfile where
  id : ObjectId
  studentId : String
  name : String
  email : String
  role : String
deriving DecidableEq, Repr

/-- The `user` field of a listed ticket after `populate('user', 'studentId name')`
and the anonymity rewrite: the populated fields carry the `_id`, the
placeholder carries none. -/
structure UserRef where
  _id : Option ObjectId
  studentId : String
  name : String
deriving DecidableEq, Repr

/-- A ticket of the admin listing (a plain object of `.lean()`); `user` is
`none` when `populate` finds no account. -/
structure ListedFeedback where
  _id : ObjectId
  user : Option UserRef
  category : String
  title : String
  content : String
  priority : String
  status : Option String
  isAnonymous : Bool
  responses : List ResponseEntry
  resolvedAt : Option Time
  createdAt : Time
  updatedAt : Time
deriving DecidableEq, Repr

/-- The `pagination` object; `pages` is `none` when `Math.ceil(total / limit)`
is not a finite number. -/
structure Pagination where
  page : Nat
  limit : Nat
  total : Nat
  pages : Option Nat
deriving DecidableEq, Repr

/-- The payload of a response next to `success` and `message`. -/
inductive Payload where
  | empty
  | auth (token : Token) (user : PublicProfile)
  | feedback (feedback : Feedback)
  | feedbacks (feedbacks : List ListedFeedback) (pagination : Pagination)
  | created (id : ObjectId) (title : String) (status : Option String)
  | myFeedbacks (feedbacks : List Feedback) (pagination : Pagination)
deriving DecidableEq, Repr

/-- An HTTP response: `res.status(status).json(...)`. -/
structure Response where
  status : Nat
  success : Bool
  message : Option String
  payload : Payload
deriving DecidableEq, Repr

/-- The response `res.status(code).json(...)` with `success: false` and a message. -/
def fail (code : Nat) (message : String) : Response :=
  ⟨code, false, some message, Payload.empty⟩

/-- JavaScript truthiness of a request field: present and not the empty string. -/
def truthy (v : Option String) : Bool :=
  match v with
  | none => false
  | some s => s != ""

/-! ## Middleware and helpers -/

/-- The function `userSchema.methods.isLocked`:
`this.lockUntil && this.lockUntil > Date.now()`. -/
def isLocked (user : User) (now : Time) : Bool :=
  match user.lockUntil with
  | none => false
  | some t => decide (t > now)

/-- The function `userSchema.methods.comparePassword`. -/
def comparePassword (cfg : Config) (user : User) (candidatePassword : String) : Bool :=
  cfg.bcryptCompare candidatePassword user.password

/-- The middleware `adminOnly`: `some` response when it answers itself, `none`
when it calls `next()`. -/
def adminOnly (reqUser : User) : Option Response :=
  if reqUser.role ≠ "admin" ∧ reqUser.role ≠ "superadmin" then
    some (fail 403 "无权限访问")
  else none

/-- The function `logAction`: appends an audit entry; a failure of
`AuditLog.create` is caught and changes nothing. -/
def logAction (env : Env) (db : Db) (userId : ObjectId) (action resource : String)
    (resourceId : ObjectId) (details : List (String × Option String)) (req : ReqInfo) : Db :=
  if env.auditOk then
    { db with auditLogs := db.auditLogs ++
        [⟨userId, action, resource, resourceId, details, req.ip, req.userAgent, env.now⟩] }
  else db

/-- The query `User.findOne` by `studentId`. -/
def findOneByStudentId (users : List User) (studentId : String) : Option User :=
  users.find? (fun u => u.studentId == studentId)

/-- The query `Feedback.findById(id)`. -/
def findById (feedbacks : List Feedback) (id : ObjectId) : Option Feedback :=
  feedbacks.find? (fun f => f._id == id)

/-- The document `save()` writes: `updatedAt` is stamped when a path was
modified, an unmodified document is written back as it is. -/
def stampUser (now : Time) (old new : User) : User :=
  if new = old then old else { new with updatedAt := now }

/-- The call `user.save()`: writes the document over the stored one with the
same `_id`. -/
def saveUser (now : Time) (users : List User) (old new : User) : List User :=
  users.map (fun u => if u._id = old._id then stampUser now old new else u)

/-- The document `save()` writes for a ticket, as `stampUser`. -/
def stampFeedback (now : Time) (old new : Feedback) : Feedback :=
  if new = old then old else { new with updatedAt := now }

/-- The call `feedback.save()` after validation passed. -/
def saveFeedback (now : Time) (feedbacks : List Feedback) (old new : Feedback) : List Feedback :=
  feedbacks.map (fun f => if f._id = old._id then stampFeedback now old new else f)

/-! ## POST /api/auth/login -/

/-- The body of a login request. -/
structure LoginBody where
  studentId : Option String
  password : Option String
deriving DecidableEq, Repr

/-- The constant `30 * 60 * 1000`: thirty minutes. -/
def lockDuration : Nat := 30 * 60 * 1000

/-- The handler of `POST /api/auth/login` (behind `loginLimiter`). -/
def login (cfg : Config) (env : Env) (db : Db) (req : ReqInfo) (body : LoginBody) :
    Response × Db :=
  if !truthy body.studentId || !truthy body.password then
    (fail 400 "请输入学号和密码", db)
  else
    match findOneByStudentId db.users (body.studentId.getD "") with
    | none => (fail 401 "学号或密码错误", db)
    | some user =>
      if isLocked user env.now then
        (fail 423 "账户已被锁定，请稍后再试", db)
      else if !comparePassword cfg user (body.password.getD "") then
        let attempts := user.loginAttempts + 1
        let user1 : User := { user with
          loginAttempts := attempts
          lockUntil := if attempts ≥ 5 then some (env.now + lockDuration) else user.lockUntil }
        (fail 401 "学号或密码错误", { db with users := saveUser env.now db.users user user1 })
      else
        let user1 : User := { user with
          loginAttempts := 0, lockUntil := none, lastLogin := some env.now }
        let db1 : Db := { db with users := saveUser env.now db.users user user1 }
        let token : Token :=
          ⟨user._id, user.role, env.now / 1000, env.now / 1000 + cfg.jwtExpire, cfg.jwtSecret⟩
        let db2 := logAction env db1 user._id "login" "user" user._id [] req
        (⟨200, true, none, Payload.auth token
            ⟨user._id, user.studentId, user.name, user.email, user.role⟩⟩, db2)

/-! ## sanitizeInput -/

/-- The characters `String.prototype.trim` removes: the ECMAScript WhiteSpace
and LineTerminator code points. -/
def isJsWhiteSpace (c : Char) : Bool :=
  let n := c.toNat
  n == 0x09 || n == 0x0A || n == 0x0B || n == 0x0C || n == 0x0D || n == 0x20 ||
  n == 0xA0 || n == 0x1680 || (0x2000 ≤ n && n ≤ 0x200A) || n == 0x2028 ||
  n == 0x2029 || n == 0x202F || n == 0x205F || n == 0x3000 || n == 0xFEFF

/-- The method `trim()` on the characters of a string. -/
def jsTrim (cs : List Char) : List Char :=
  ((cs.dropWhile isJsWhiteSpace).reverse.dropWhile isJsWhiteSpace).reverse

/-- The call `replace(/<[^>]*>/g, '')` as a scan: a `<` with a `>` somewhere
after it opens a match that runs to the first such `>` and is deleted; a `<`
with no `>` after it matches nothing and stays.  The flag says whether the scan
is inside a match. -/
def stripTagsFrom : Bool → List Char → List Char
  | _, [] => []
  | true, c :: cs => if c = '>' then stripTagsFrom false cs else stripTagsFrom true cs
  | false, c :: cs =>
    if c = '<' ∧ '>' ∈ cs then stripTagsFrom true cs else c :: stripTagsFrom false cs

/-- The function `sanitizeInput` on a string:
`input.trim().replace(/<[^>]*>/g, '')`. -/
def sanitizeInput (input : String) : String :=
  ⟨stripTagsFrom false (jsTrim input.data)⟩

/-! ## GET /api/feedback/:id -/

/-- The handler of `GET /api/feedback/:id` behind `authenticate`; `reqUser`
is `req.user`, `id` is `req.params.id` cast to an `ObjectId` (`none` when the
cast throws). -/
def getFeedback (db : Db) (reqUser : User) (id : Option ObjectId) : Response × Db :=
  match id with
  | none => (fail 500 "获取反馈详情失败", db)
  | some i =>
    match findById db.feedbacks i with
    | none => (fail 404 "反馈不存在", db)
    | some feedback =>
      if feedback.user ≠ reqUser._id ∧ reqUser.role = "student" then
        (fail 403 "无权查看此反馈", db)
      else
        (⟨200, true, none, Payload.feedback feedback⟩, db)

/-! ## GET /api/admin/feedbacks -/

/-- The query string of the admin listing; `page` and `limit` are decimal
numerals or absent. -/
structure ListQuery where
  status : Option String
  category : Option String
  priority : Option String
  page : Option Nat
  limit : Option Nat
deriving DecidableEq, Repr

/-- The filter object built from the truthy query fields. -/
def matchesQuery (q : ListQuery) (f : Feedback) : Bool :=
  (!truthy q.status || f.status == q.status) &&
  (!truthy q.category || some f.category == q.category) &&
  (!truthy q.priority || some f.priority == q.priority)

/-- Strict order of two strings by code point, the order in which the store
compares string fields. -/
def ltChars : List Char → List Char → Bool
  | [], [] => false
  | [], _ :: _ => true
  | _ :: _, [] => false
  | a :: as, b :: bs => a.toNat < b.toNat || (a.toNat == b.toNat && ltChars as bs)

/-- The sort key `priority: -1, createdAt: -1`: whether `a` may stand
before `b`, priority descending as a string, then creation time descending. -/
def listingOrder (a b : Feedback) : Prop :=
  ltChars b.priority.data a.priority.data = true ∨
    (¬ ltChars a.priority.data b.priority.data = true ∧ b.createdAt ≤ a.createdAt)

instance : DecidableRel listingOrder := fun a b => by
  unfold listingOrder; exact inferInstance

/-- The step `populate('user', 'studentId name')` for one reference. -/
def populateUser (users : List User) (id : ObjectId) : Option UserRef :=
  (users.find? (fun u => u._id == id)).map (fun u => ⟨some u._id, u.studentId, u.name⟩)

/-- The placeholder written over the owner of an anonymous ticket. -/
def anonymousUser : UserRef := ⟨none, "匿名", "匿名用户"⟩

/-- One ticket of the listing: the plain object with `user` populated, then
the anonymity rewrite of the `forEach`. -/
def listedFeedback (users : List User) (f : Feedback) : ListedFeedback :=
  { _id := f._id
    user := if f.isAnonymous then some anonymousUser else populateUser users f.user
    category := f.category, title := f.title, content := f.content
    priority := f.priority, status := f.status, isAnonymous := f.isAnonymous
    responses := f.responses, resolvedAt := f.resolvedAt
    createdAt := f.createdAt, updatedAt := f.updatedAt }

/-- The value `Math.ceil(total / limit)`; not a finite number when `limit` is 0. -/
def pageCount (total limit : Nat) : Option Nat :=
  if limit = 0 then none else some ((total + limit - 1) / limit)

/-- The handler of `GET /api/admin/feedbacks` behind `authenticate` and
`adminOnly`.  Tickets equal under the sort key keep their stored order.  A
negative `skip` is refused by the store; a `limit` of 0 means no limit. -/
def adminFeedbacksHandler (db : Db) (q : ListQuery) : Response × Db :=
  let page := q.page.getD 1
  let limit := q.limit.getD 20
  if page = 0 ∧ limit ≠ 0 then (fail 500 "获取反馈列表失败", db)
  else
    let found := db.feedbacks.filter (matchesQuery q)
    let sorted := found.insertionSort listingOrder
    let skipped := sorted.drop ((page - 1) * limit)
    let docs := if limit = 0 then skipped else skipped.take limit
    let feedbacks := docs.map (listedFeedback db.users)
    let total := found.length
    (⟨200, true, none, Payload.feedbacks feedbacks ⟨page, limit, total, pageCount total limit⟩⟩, db)

/-- The route `GET /api/admin/feedbacks`: `adminOnly`, then the handler. -/
def adminFeedbacks (db : Db) (reqUser : User) (q : ListQuery) : Response × Db :=
  match adminOnly reqUser with
  | some res => (res, db)
  | none => adminFeedbacksHandler db q

/-! ## PATCH /api/admin/feedback/:id/status -/

/-- The body of a status update. -/
structure StatusBody where
  status : Option String
  response : Option String
deriving DecidableEq, Repr

/-- The enumeration of `feedbackSchema.status`. -/
def statusEnum : List String := ["pending", "processing", "resolved", "rejected"]

/-- The enum validator of `status`: an unset value passes, a string must be
a member. -/
def validStatus (status : Option String) : Bool :=
  match status with
  | none => true
  | some s => decide (s ∈ statusEnum)

/-- The in-memory changes of the status update before `save()`: the ticket
with the new status, the pushed response and the resolution stamp. -/
def applyStatusUpdate (now : Time) (reqUser : User) (feedback : Feedback) (body : StatusBody) :
    Feedback :=
  let f1 : Feedback := { feedback with status := body.status }
  let f2 : Feedback :=
    if truthy body.response then
      { f1 with responses := f1.responses ++
          [⟨sanitizeInput (body.response.getD ""), reqUser._id, reqUser.name, now⟩] }
    else f1
  if body.status = some "resolved" then { f2 with resolvedAt := some now } else f2

/-- The handler of `PATCH /api/admin/feedback/:id/status` behind
`authenticate` and `adminOnly`. -/
def updateStatusHandler (env : Env) (db : Db) (reqUser : User) (req : ReqInfo)
    (id : Option ObjectId) (body : StatusBody) : Response × Db :=
  match id with
  | none => (fail 500 "更新状态失败", db)
  | some i =>
    match findById db.feedbacks i with
    | none => (fail 404 "反馈不存在", db)
    | some feedback =>
      let updated := applyStatusUpdate env.now reqUser feedback body
      if !validStatus updated.status then (fail 500 "更新状态失败", db)
      else
        let saved := stampFeedback env.now feedback updated
        let db1 : Db := { db with feedbacks := saveFeedback env.now db.feedbacks feedback updated }
        let db2 := logAction env db1 reqUser._id "update_status" "feedback" feedback._id
          [("status", body.status)] req
        (⟨200, true, some "状态更新成功", Payload.feedback saved⟩, db2)

/-- The route `PATCH /api/admin/feedback/:id/status`: `adminOnly`, then the
handler. -/
def updateStatus (env : Env) (db : Db) (reqUser : User) (req : ReqInfo)
    (id : Option ObjectId) (body : StatusBody) : Response × Db :=
  match adminOnly reqUser with
  | some res => (res, db)
  | none => updateStatusHandler env db reqUser req id body

/-! ## Sequences of requests -/

/-- One login request with what it observes. -/
structure LoginAttempt where
  env : Env
  req : ReqInfo
  body : LoginBody
deriving DecidableEq, Repr

/-- The stored state after a sequence of login requests, in order. -/
def runLogins (cfg : Config) (db : Db) (attempts : List LoginAttempt) : Db :=
  attempts.foldl (fun d a => (login cfg a.env d a.req a.body).2) db

/-- One status-update request on a ticket with what it observes. -/
structure StatusRequest where
  env : Env
  reqUser : User
  req : ReqInfo
  body : StatusBody
deriving DecidableEq, Repr

/-- The stored state after a sequence of status updates of ticket `id`. -/
def runUpdates (db : Db) (id : ObjectId) (updates : List StatusRequest) : Db :=
  updates.foldl (fun d r => (updateStatus r.env d r.reqUser r.req (some id) r.body).2) db

/-- The resolution stamp the updates leave behind: the clock of the last one
whose new status is `resolved`, otherwise the earlier value. -/
def lastResolved (init : Option Time) (updates : List StatusRequest) : Option Time :=
  updates.foldl (fun r u => if u.body.status = some "resolved" then some u.env.now else r) init

/-- The responses of a sequence of login requests, in order. -/
def loginResponses (cfg : Config) (db : Db) : List LoginAttempt → List Response
  | [] => []
  | a :: rest =>
    (login cfg a.env db a.req a.body).1 ::
      loginResponses cfg (login cfg a.env db a.req a.body).2 rest

/-- A login request for identifier `sid` that submits a password. -/
def submitsFor (sid : String) (a : LoginAttempt) : Prop :=
  a.body.studentId = some sid ∧ truthy a.body.password = true

/-- A login request for identifier `sid` whose submitted password does not
match the stored hash `hash`. -/
def wrongFor (cfg : Config) (sid hash : String) (a : LoginAttempt) : Prop :=
  submitsFor sid a ∧ cfg.bcryptCompare (a.body.password.getD "") hash = false

/-- The response of a refused login on a locked account. -/
def accountLocked : Response := fail 423 "账户已被锁定，请稍后再试"

/-- The response of a login with an unknown identifier or a wrong password. -/
def invalidCredentials : Response := fail 401 "学号或密码错误"

/-! ## authenticate -/

/-- The query `User.findById(id)`. -/
def findUserById (users : List User) (id : ObjectId) : Option User :=
  users.find? (fun u => u._id == id)

/-- The element `split(' ')[1]` of a header value: what stands between the
first space and the next one; undefined when there is no space. -/
def secondField (cs : List Char) : Option (List Char) :=
  match cs.dropWhile (fun c => c != ' ') with
  | [] => none
  | _ :: rest => some (rest.takeWhile (fun c => c != ' '))

/-- The variable `token` of `authenticate`: set when the `Authorization`
header is present, non-empty and starts with `Bearer`. -/
def bearerToken (authorization : Option String) : Option String :=
  match authorization with
  | none => none
  | some h =>
    if h ≠ "" ∧ "Bearer".data.isPrefixOf h.data = true then
      (secondField h.data).map String.mk
    else none

/-- The call `jwt.verify(token, secret)`: `decode` reads the claims and the
signing key off the token string (`none` for a malformed token); the
signature must be the secret's and the expiry must lie after the clock in
seconds.  `none` stands for a thrown error. -/
def jwtVerify (decode : String → Option Token) (secret : String) (now : Time)
    (token : String) : Option Token :=
  match decode token with
  | none => none
  | some t => if t.key = secret ∧ now / 1000 < t.exp then some t else none

/-- The middleware `authenticate`: `error` is the response it sends itself,
`ok` is the account it puts in `req.user` before `next()`. -/
def authenticate (cfg : Config) (decode : String → Option Token) (env : Env) (db : Db)
    (authorization : Option String) : Except Response User :=
  match bearerToken authorization with
  | none => Except.error (fail 401 "请先登录")
  | some token =>
    if token = "" then Except.error (fail 401 "请先登录")
    else
      match jwtVerify decode cfg.jwtSecret env.now token with
      | none => Except.error (fail 401 "认证失败，请重新登录")
      | some decoded =>
        match findUserById db.users decoded.id with
        | none => Except.error (fail 401 "用户不存在或已被禁用")
        | some user =>
          if !user.isActive then Except.error (fail 401 "用户不存在或已被禁用")
          else Except.ok user

/-- A route behind `authenticate`: the handler runs with `req.user` only when
the middleware calls `next()`. -/
def protectedRoute (cfg : Config) (decode : String → Option Token) (env : Env) (db : Db)
    (authorization : Option String) (handler : User → Response × Db) : Response × Db :=
  match authenticate cfg decode env db authorization with
  | Except.error res => (res, db)
  | Except.ok user => handler user

/-! ## PUT /api/auth/password -/

/-- The body of a password change. -/
structure PasswordBody where
  currentPassword : Option String
  newPassword : Option String
deriving DecidableEq, Repr

/-- The length of a JavaScript string: UTF-16 code units. -/
def jsLength (s : String) : Nat :=
  (s.data.map (fun c => if c.toNat < 0x10000 then 1 else 2)).sum

/-- The handler of `PUT /api/auth/password` behind `authenticate`; `hash` is
`bcrypt.hash(·, 12)` of the pre-save hook.  `bcrypt.compare` rejects a
candidate that is not a string; `password` is required with at least 6
characters, checked before the hook hashes it. -/
def changePassword (cfg : Config) (hash : String → String) (env : Env) (db : Db)
    (reqUser : User) (req : ReqInfo) (body : PasswordBody) : Response × Db :=
  match findUserById db.users reqUser._id with
  | none => (fail 500 "密码修改失败", db)
  | some user =>
    match body.currentPassword with
    | none => (fail 500 "密码修改失败", db)
    | some current =>
      if !comparePassword cfg user current then (fail 400 "当前密码错误", db)
      else
        match body.newPassword with
        | none => (fail 500 "密码修改失败", db)
        | some newPassword =>
          if jsLength newPassword < 6 then (fail 500 "密码修改失败", db)
          else
            let user1 : User :=
              if newPassword = user.password then user
              else { user with password := hash newPassword }
            let db1 : Db := { db with users := saveUser env.now db.users user user1 }
            let db2 := logAction env db1 reqUser._id "password_change" "user" reqUser._id [] req
            (⟨200, true, some "密码修改成功", Payload.empty⟩, db2)

/-! ## POST /api/feedback -/

/-- The body of a ticket creation: the five fields the handler reads, and
`others`, whatever else the body carries.  `isAnonymous` is a JSON boolean or
absent. -/
structure CreateBody where
  category : Option String
  title : Option String
  content : Option String
  priority : Option String
  isAnonymous : Option Bool
  others : List (String × String)
deriving DecidableEq, Repr

/-- The enumeration of `feedbackSchema.category`. -/
def categoryEnum : List String :=
  ["academic", "accommodation", "catering", "financial", "safety", "other"]

/-- The enumeration of `feedbackSchema.priority`. -/
def priorityEnum : List String := ["low", "normal", "high", "urgent"]

/-- The value stored for a submitted title or content: `sanitizeInput`, then
the `trim: true` setter of the schema. -/
def storedText (input : String) : String :=
  ⟨jsTrim (sanitizeInput input).data⟩

/-- The document `Feedback.create` builds from the handler's object: setters
and schema defaults applied, `_id` generated, timestamps stamped. -/
def newFeedback (now : Time) (newId : ObjectId) (reqUser : User) (body : CreateBody) :
    Feedback :=
  { _id := newId
    user := reqUser._id
    category := body.category.getD ""
    title := storedText (body.title.getD "")
    content := storedText (body.content.getD "")
    priority := if truthy body.priority then body.priority.getD "" else "normal"
    status := some "pending"
    isAnonymous := body.isAnonymous.getD false
    responses := []
    resolvedAt := none
    createdAt := now
    updatedAt := now }

/-- The validators of `feedbackSchema`: the enumerations, `required` and
`maxlength` of title and content. -/
def validFeedback (f : Feedback) : Bool :=
  decide (f.category ∈ categoryEnum) &&
  (f.title != "" && decide (jsLength f.title ≤ 100)) &&
  (f.content != "" && decide (jsLength f.content ≤ 2000)) &&
  decide (f.priority ∈ priorityEnum) && validStatus f.status

/-- The handler of `POST /api/feedback` behind `authenticate`; `newId` is the
`ObjectId` generated for the document. -/
def createFeedback (env : Env) (db : Db) (reqUser : User) (req : ReqInfo) (newId : ObjectId)
    (body : CreateBody) : Response × Db :=
  if !truthy body.category || !truthy body.title || !truthy body.content then
    (fail 400 "请填写所有必填字段", db)
  else
    let feedback := newFeedback env.now newId reqUser body
    if !validFeedback feedback then (fail 500 "提交失败，请重试", db)
    else
      let db1 : Db := { db with feedbacks := db.feedbacks ++ [feedback] }
      let db2 := logAction env db1 reqUser._id "create" "feedback" feedback._id
        [("category", body.category)] req
      (⟨201, true, some "反馈提交成功",
        Payload.created feedback._id feedback.title feedback.status⟩, db2)

/-! ## GET /api/feedback/my -/

/-- The query string of the caller's own listing. -/
structure MyListQuery where
  status : Option String
  category : Option String
  page : Option Nat
  limit : Option Nat
deriving DecidableEq, Repr

/-- The filter object of the own listing: the caller's tickets, narrowed by
the truthy query fields. -/
def matchesMine (owner : ObjectId) (q : MyListQuery) (f : Feedback) : Bool :=
  f.user == owner &&
  (!truthy q.status || f.status == q.status) &&
  (!truthy q.category || some f.category == q.category)

/-- The sort key `createdAt: -1`: whether `a` may stand before `b`. -/
def createdOrder (a b : Feedback) : Prop := b.createdAt ≤ a.createdAt

instance : DecidableRel createdOrder := fun a b => by
  unfold createdOrder; exact inferInstance

/-- The handler of `GET /api/feedback/my` behind `authenticate`; skip and
limit as in the admin listing. -/
def myFeedbacks (db : Db) (reqUser : User) (q : MyListQuery) : Response × Db :=
  let page := q.page.getD 1
  let limit := q.limit.getD 20
  if page = 0 ∧ limit ≠ 0 then (fail 500 "获取反馈列表失败", db)
  else
    let found := db.feedbacks.filter (matchesMine reqUser._id q)
    let sorted := found.insertionSort createdOrder
    let skipped := sorted.drop ((page - 1) * limit)
    let docs := if limit = 0 then skipped else skipped.take limit
    let total := found.length
    (⟨200, true, none, Payload.myFeedbacks docs ⟨page, limit, total, pageCount total limit⟩⟩, db)

/-! ## POST /api/auth/register -/

/-- The body of a registration: the five fields the handler reads, and
`others`, whatever else the body carries. -/
structure RegisterBody where
  studentId : Option String
  password : Option String
  name : Option String
  email : Option String
  phone : Option String
  others : List (String × String)
deriving DecidableEq, Repr

/-- The class `\d`: an ASCII digit. -/
def isDigit (c : Char) : Bool := 0x30 ≤ c.toNat && c.toNat ≤ 0x39

/-- The pattern `/^\d{8,12}$/` of `studentId`. -/
def matchesStudentId (s : String) : Bool :=
  s.data.all isDigit && decide (8 ≤ s.data.length) && decide (s.data.length ≤ 12)

/-- The pattern `/^1[3-9]\d{9}$/` of `phone`. -/
def matchesPhone (s : String) : Bool :=
  match s.data with
  | a :: b :: rest =>
    a == '1' && (0x33 ≤ b.toNat && b.toNat ≤ 0x39) && rest.all isDigit &&
      decide (rest.length = 9)
  | _ => false

/-- A `.` with something after it, the tail `\.\S+` of the email pattern. -/
def dotThenMore : List Char → Bool
  | [] => false
  | c :: rest => (c == '.' && !rest.isEmpty) || dotThenMore rest

/-- An `@` followed by at least one character and then `dotThenMore`. -/
def atThenDomain : List Char → Bool
  | [] => false
  | c :: rest =>
    (c == '@' && (match rest with | [] => false | _ :: more => dotThenMore more)) ||
      atThenDomain rest

/-- The pattern `/^\S+@\S+\.\S+$/` of `email`: no whitespace anywhere, and an
`@` after at least one character, followed by at least one character, a `.`
and at least one character. -/
def matchesEmail (s : String) : Bool :=
  s.data.all (fun c => !isJsWhiteSpace c) &&
    (match s.data with | [] => false | _ :: rest => atThenDomain rest)

/-- The document `User.create` builds from the handler's object, before the
pre-save hook: setters (`trim`, `lowercase`) and schema defaults applied, the
password still as submitted.  `lower` is `String.prototype.toLowerCase`. -/
def newUser (lower : String → String) (now : Time) (newId : ObjectId) (body : RegisterBody) :
    User :=
  { _id := newId
    studentId := storedText (body.studentId.getD "")
    password := body.password.getD ""
    name := storedText (body.name.getD "")
    email := lower (sanitizeInput (body.email.getD ""))
    phone := body.phone.map storedText
    role := "student"
    isActive := true
    lastLogin := none
    loginAttempts := 0
    lockUntil := none
    createdAt := now
    updatedAt := now }

/-- The enumeration of `userSchema.role`. -/
def roleEnum : List String := ["student", "admin", "superadmin"]

/-- The validators of `userSchema`; a `match` validator passes an empty or
unset value. -/
def validUser (u : User) : Bool :=
  (u.studentId != "" && matchesStudentId u.studentId) &&
  (u.password != "" && decide (6 ≤ jsLength u.password)) &&
  (u.name != "" && decide (jsLength u.name ≤ 50)) &&
  (u.email != "" && matchesEmail u.email) &&
  (match u.phone with
    | none => true
    | some ph => ph == "" || matchesPhone ph) &&
  decide (u.role ∈ roleEnum)

/-- The unique indexes on `studentId` and `email`: whether inserting `u`
raises a duplicate-key error. -/
def duplicateKey (users : List User) (u : User) : Bool :=
  users.any (fun v => v.studentId == u.studentId || v.email == u.email)

/-- The handler of `POST /api/auth/register`; `hash` is `bcrypt.hash(·, 12)` of
the pre-save hook, `newId` the `ObjectId` generated for the document.  The
lookup returns the first stored account that matches either clause. -/
def register (hash lower : String → String) (env : Env) (db : Db) (req : ReqInfo)
    (newId : ObjectId) (body : RegisterBody) : Response × Db :=
  if !truthy body.studentId || !truthy body.password || !truthy body.name ||
      !truthy body.email then
    (fail 400 "请填写所有必填字段", db)
  else
    match db.users.find? (fun u =>
      some u.studentId == body.studentId || some u.email == body.email) with
    | some existingUser =>
      (fail 400 (if some existingUser.studentId = body.studentId then "学号已被注册"
        else "邮箱已被注册"), db)
    | none =>
      let draft := newUser lower env.now newId body
      if !validUser draft then (fail 500 "注册失败，请重试", db)
      else
        let user : User := { draft with password := hash draft.password }
        if duplicateKey db.users user then (fail 500 "注册失败，请重试", db)
        else
          let db1 : Db := { db with users := db.users ++ [user] }
          let db2 := logAction env db1 user._id "register" "user" user._id
            [("studentId", body.studentId)] req
          (⟨201, true, some "注册成功", Payload.empty⟩, db2)

/-! ## Reading a listing response -/

/-- The tickets of an admin listing response. -/
def listedOf (res : Response) : List ListedFeedback :=
  match res.payload with
  | Payload.feedbacks fs _ => fs
  | _ => []

/-- The `pagination` object of a listing response. -/
def paginationOf (res : Response) : Option Pagination :=
  match res.payload with
  | Payload.feedbacks _ pg => some pg
  | Payload.myFeedbacks _ pg => some pg
  | _ => none

/-- The response of the admin listing for page `page` with page size `limit`
under the filter of `q`. -/
def adminPage (db : Db) (reqUser : User) (q : ListQuery) (page limit : Nat) : Response :=
  (adminFeedbacks db reqUser { q with page := some page, limit := some limit }).1

/-- The admin listing's pages 1 to `count`, concatenated in page order. -/
def adminPages (db : Db) (reqUser : User) (q : ListQuery) (limit count : Nat) :
    List ListedFeedback :=
  (List.range count).flatMap (fun k => listedOf (adminPage db reqUser q (k + 1) limit))

/-- No two stored accounts share an `_id`, an identifier or an email. -/
def UniqueAccounts (users : List User) : Prop :=
  (users.map (fun u => u._id)).Nodup ∧ (users.map (fun u => u.studentId)).Nodup ∧
    (users.map (fun u => u.email)).Nodup

/-! ## The xss() middleware -/

/-- The filter the `xss()` middleware runs over the request body: every `<`
becomes `&lt;`, every other character stays. -/
def escapeLt : List Char → List Char
  | [] => []
  | c :: cs => if c = '<' then '&' :: 'l' :: 't' :: ';' :: escapeLt cs else c :: escapeLt cs

/-- A string of the request body after `app.use(xss())`. -/
def xssClean (s : String) : String := ⟨escapeLt s.data⟩

/-- The body of a ticket creation after `app.use(xss())`: every string of it
cleaned, the boolean untouched. -/
def cleanCreateBody (body : CreateBody) : CreateBody :=
  { category := body.category.map xssClean
    title := body.title.map xssClean
    content := body.content.map xssClean
    priority := body.priority.map xssClean
    isAnonymous := body.isAnonymous
    others := body.others.map (fun kv => (xssClean kv.1, xssClean kv.2)) }

/-- The route `POST /api/feedback` from the body the client sends: the
`xss()` middleware, then the handler (`reqUser` is the account `authenticate`
attached). -/
def postFeedback (env : Env) (db : Db) (reqUser : User) (req : ReqInfo) (newId : ObjectId)
    (body : CreateBody) : Response × Db :=
  createFeedback env db reqUser req newId (cleanCreateBody body)

/-! ## Properties of stored text -/

/-- A string with no leading and no trailing whitespace. -/
def Trimmed (cs : List Char) : Prop :=
  (∀ c, cs.head? = some c → isJsWhiteSpace c = false) ∧
  (∀ c, cs.getLast? = some c → isJsWhiteSpace c = false)

/-- A string with no `<` that is followed anywhere later by a `>`. -/
def TagFree (cs : List Char) : Prop :=
  ∀ pre post : List Char, cs = pre ++ '<' :: post → '>' ∉ post

/-- A creation input that passes the required-field check and the schema
validators: a category of the enumeration, a title and a content that are
non-blank once stored and within 100 and 2000 code units, and a priority that
is absent, empty or of the enumeration. -/
def ValidCreateInput (body : CreateBody) : Prop :=
  (∃ c ∈ categoryEnum, body.category = some c) ∧
  (∃ t, body.title = some t ∧ storedText t ≠ "" ∧ jsLength (storedText t) ≤ 100) ∧
  (∃ c, body.content = some c ∧ storedText c ≠ "" ∧ jsLength (storedText c) ≤ 2000) ∧
  (truthy body.priority = true → ∃ p ∈ priorityEnum, body.priority = some p)

/-! ## Sample data -/

/-- A configuration whose hash comparison is string equality. -/
def sampleConfig : Config := ⟨"key", 604800, fun candidate hash => candidate == hash⟩

/-- A student account. -/
def sampleStudent : User :=
  ⟨1, "20240001", "secret1", "Li", "li@buct.edu.cn", none, "student", true, none, 0, none, 0, 0⟩

/-- A second student account. -/
def sampleStudent2 : User :=
  ⟨3, "20240003", "secret3", "Wang", "wang@buct.edu.cn", none, "student", true, none, 0, none, 0, 0⟩

/-- An administrator account. -/
def sampleAdmin : User :=
  ⟨2, "20240002", "secret2", "Zhang", "zhang@buct.edu.cn", none, "admin", true, none, 0, none, 0, 0⟩

/-- An anonymous ticket of `sampleStudent`. -/
def sampleAnonymous : Feedback :=
  ⟨10, 1, "academic", "T", "C", "low", some "pending", true, [], none, 5, 5⟩

/-- A signed ticket of `sampleStudent`. -/
def sampleSigned : Feedback :=
  ⟨11, 1, "catering", "T2", "C2", "urgent", some "resolved", false, [], some 7, 6, 7⟩

/-- A store with the three sample accounts and the two sample tickets. -/
def sampleDb : Db := ⟨[sampleStudent, sampleAdmin, sampleStudent2], [sampleAnonymous, sampleSigned], []⟩

/-- A request origin. -/
def sampleReq : ReqInfo := ⟨"127.0.0.1", none⟩

/-- A login request of `sampleStudent` at time `now` with password `pw`. -/
def sampleLogin (now : Time) (pw : String) : LoginAttempt :=
  ⟨⟨now, true⟩, sampleReq, ⟨some "20240001", some pw⟩⟩

/-- A status update by `sampleAdmin` at time `now`. -/
def sampleUpdate (now : Time) (status response : Option String) : StatusRequest :=
  ⟨⟨now, true⟩, sampleAdmin, sampleReq, ⟨status, response⟩⟩

/-- A decoder of token strings that knows two tokens: one signed with the
key of `sampleConfig` for account 1 and one for account 4, both expiring at
second 1000. -/
def sampleDecode (token : String) : Option Token :=
  if token = "t1" then some ⟨1, "student", 0, 1000, "key"⟩
  else if token = "t4" then some ⟨4, "student", 0, 1000, "key"⟩
  else none

/-- A deactivated student account. -/
def sampleInactive : User :=
  ⟨4, "20240004", "secret4", "Zhao", "zhao@buct.edu.cn", none, "student", false, none, 0, none, 0, 0⟩

/-- A store holding `sampleStudent` and `sampleInactive`. -/
def sampleDb2 : Db := ⟨[sampleStudent, sampleInactive], [], []⟩

/-- A creation body with the title of the specification's example. -/
def sampleCreate : CreateBody :=
  ⟨some "academic", some "<script>x</script>Hello", some "C", some "low", some true, []⟩

/-- A ticket of priority `normal`. -/
def sampleNormal : Feedback :=
  ⟨20, 1, "academic", "N", "C", "normal", some "pending", false, [], none, 10, 10⟩

/-- A ticket of priority `high`, created after `sampleNormal`. -/
def sampleHigh : Feedback :=
  ⟨21, 1, "academic", "H", "C", "high", some "pending", false, [], none, 11, 11⟩

/-- A store with the sample accounts and the tickets `sampleHigh` and
`sampleNormal`. -/
def sampleDb3 : Db := ⟨[sampleStudent, sampleAdmin, sampleStudent2], [sampleHigh, sampleNormal], []⟩

/-- A registration with the identifier of `sampleAdmin` and the email of
`sampleStudent`. -/
def sampleRegisterBoth : RegisterBody :=
  ⟨some "20240002", some "secret9", some "Chen", some "li@buct.edu.cn", none, []⟩

/-- A registration of a new account whose body also carries a role and the
lockout fields. -/
def sampleRegister : RegisterBody :=
  ⟨some "20240009", some "secret9", some "Chen", some "Chen@buct.edu.cn", some "13800000000",
    [("role", "superadmin"), ("isActive", "false"), ("loginAttempts", "9"), ("lockUntil", "1")]⟩

/-- A lower-casing of the ASCII letters. -/
def sampleLower (s : String) : String := ⟨s.data.map Char.toLower⟩

/-! # Theorems -/

/-! ## Lemmas on the stored accounts -/

theorem find_map_replace {α : Type} (p : α → Bool) (g : α → α) (doc old : α)
    (hdoc : p doc = true) (hg : ∀ x, g x = doc ∨ g x = x) (hold : g old = doc) :
    ∀ xs : List α, xs.find? p = some old → (xs.map g).find? p = some doc := by
  intro xs
  induction xs with
  | nil => intro h; simp at h
  | cons x xs ih =>
    intro h
    rw [List.map_cons]
    by_cases hpx : p x = true
    · rw [List.find?_cons_of_pos _ hpx] at h
      have hx : x = old := by simpa using h
      rw [hx, hold, List.find?_cons_of_pos _ hdoc]
    · rw [List.find?_cons_of_neg _ hpx] at h
      rcases hg x with hgx | hgx
      · rw [hgx, List.find?_cons_of_pos _ hdoc]
      · rw [hgx, List.find?_cons_of_neg _ hpx]
        exact ih h

theorem findOne_studentId {users : List User} {sid : String} {u : User}
    (h : findOneByStudentId users sid = some u) : u.studentId = sid := by
  have := List.find?_some h
  simpa using this

theorem findOne_saveUser (now : Time) (users : List User) (sid : String) (old new : User)
    (hfind : findOneByStudentId users sid = some old) (hsid : new.studentId = sid) :
    findOneByStudentId (saveUser now users old new) sid = some (stampUser now old new) := by
  unfold findOneByStudentId saveUser
  have hold := findOne_studentId hfind
  apply find_map_replace _ _ _ old _ _ _ users hfind
  · by_cases hn : new = old
    · simp [stampUser, hn, hold]
    · simp [stampUser, hn, hsid]
  · intro x
    by_cases hx : x._id = old._id
    · left; simp [hx]
    · right; simp [hx]
  · simp

/-! ## Lemmas on login -/

/-- The account a failed password check leaves behind. -/
theorem login_wrong_password (cfg : Config) (a : LoginAttempt) (db : Db) (sid : String)
    (u : User) (hsid : sid ≠ "") (hfind : findOneByStudentId db.users sid = some u)
    (hunl : isLocked u a.env.now = false) (hw : wrongFor cfg sid u.password a) :
    (login cfg a.env db a.req a.body).1 = invalidCredentials ∧
    ∃ u1, findOneByStudentId (login cfg a.env db a.req a.body).2.users sid = some u1 ∧
      u1.loginAttempts = u.loginAttempts + 1 ∧
      u1.lockUntil = (if u.loginAttempts + 1 ≥ 5 then some (a.env.now + lockDuration)
        else u.lockUntil) ∧
      u1.password = u.password ∧ u1.lastLogin = u.lastLogin := by
  obtain ⟨⟨hs, hp⟩, hc⟩ := hw
  have hts : truthy (some sid) = true := by simp [truthy, hsid]
  have hstep : login cfg a.env db a.req a.body =
      (invalidCredentials, { db with users := (saveUser a.env.now db.users u
        ({ u with loginAttempts := u.loginAttempts + 1
                  lockUntil := if u.loginAttempts + 1 ≥ 5 then some (a.env.now + lockDuration)
                    else u.lockUntil } : User)) }) := by
    simp [login, hts, hp, hs, hfind, hunl, comparePassword, hc, invalidCredentials]
  rw [hstep]
  refine ⟨rfl, ?_⟩
  have hsave := findOne_saveUser a.env.now db.users sid u
    ({ u with loginAttempts := u.loginAttempts + 1
              lockUntil := if u.loginAttempts + 1 ≥ 5 then some (a.env.now + lockDuration)
                else u.lockUntil } : User) hfind
    (show u.studentId = sid from findOne_studentId hfind)
  refine ⟨_, hsave, ?_⟩
  have hne : ¬ ({ u with loginAttempts := u.loginAttempts + 1
                         lockUntil := if u.loginAttempts + 1 ≥ 5 then some (a.env.now + lockDuration)
                           else u.lockUntil } : User) = u := by
    intro h
    have := congrArg User.loginAttempts h
    simp at this
  rw [stampUser, if_neg hne]
  exact ⟨rfl, rfl, rfl, rfl⟩

/-- A locked account: the request is answered 423 and nothing is written. -/
theorem login_locked (cfg : Config) (a : LoginAttempt) (db : Db) (sid : String)
    (u : User) (hsid : sid ≠ "") (hfind : findOneByStudentId db.users sid = some u)
    (hl : isLocked u a.env.now = true) (hs : submitsFor sid a) :
    login cfg a.env db a.req a.body = (accountLocked, db) := by
  obtain ⟨hs, hp⟩ := hs
  have hts : truthy (some sid) = true := by simp [truthy, hsid]
  simp [login, hts, hp, hs, hfind, hl, accountLocked]

theorem runLogins_append (cfg : Config) (db : Db) (xs ys : List LoginAttempt) :
    runLogins cfg db (xs ++ ys) = runLogins cfg (runLogins cfg db xs) ys := by
  simp [runLogins, List.foldl_append]

theorem runLogins_cons (cfg : Config) (db : Db) (a : LoginAttempt) (xs : List LoginAttempt) :
    runLogins cfg db (a :: xs) = runLogins cfg (login cfg a.env db a.req a.body).2 xs := rfl

/-- Fewer than five failures in a row on an unlocked account only count up. -/
theorem runLogins_wrong (cfg : Config) (sid : String) (hsid : sid ≠ "") :
    ∀ (attempts : List LoginAttempt) (db : Db) (u : User),
      findOneByStudentId db.users sid = some u → u.lockUntil = none →
      u.loginAttempts + attempts.length < 5 →
      (∀ a ∈ attempts, wrongFor cfg sid u.password a) →
      ∃ u1, findOneByStudentId (runLogins cfg db attempts).users sid = some u1 ∧
        u1.loginAttempts = u.loginAttempts + attempts.length ∧ u1.lockUntil = none ∧
        u1.password = u.password := by
  intro attempts
  induction attempts with
  | nil => intro db u hfind hnl _ _; exact ⟨u, hfind, rfl, hnl, rfl⟩
  | cons a rest ih =>
    intro db u hfind hnl hlt hw
    have hunl : isLocked u a.env.now = false := by simp [isLocked, hnl]
    obtain ⟨_, u1, hf1, ha1, hl1, hp1, _⟩ :=
      login_wrong_password cfg a db sid u hsid hfind hunl (hw a (List.mem_cons_self _ _))
    simp only [List.length_cons] at hlt
    have hl1n : u1.lockUntil = none := by
      rw [hl1, if_neg (by omega), hnl]
    have hw1 : ∀ b ∈ rest, wrongFor cfg sid u1.password b := by
      intro b hb; rw [hp1]; exact hw b (List.mem_cons_of_mem _ hb)
    obtain ⟨u2, hf2, ha2, hl2, hp2⟩ := ih _ u1 hf1 hl1n (by omega) hw1
    refine ⟨u2, ?_, ?_, hl2, ?_⟩
    · rw [runLogins_cons]; exact hf2
    · rw [ha2, ha1, List.length_cons]; omega
    · rw [hp2, hp1]

/-- While the lock lasts every request is answered 423 and the store stays
as it is. -/
theorem runLogins_locked (cfg : Config) (sid : String) (hsid : sid ≠ "") (db : Db) (u : User)
    (t : Time) (hfind : findOneByStudentId db.users sid = some u) (hlock : u.lockUntil = some t) :
    ∀ later : List LoginAttempt, (∀ a ∈ later, submitsFor sid a ∧ a.env.now < t) →
      loginResponses cfg db later = List.replicate later.length accountLocked ∧
      runLogins cfg db later = db := by
  intro later
  induction later with
  | nil => intro _; exact ⟨rfl, rfl⟩
  | cons a rest ih =>
    intro h
    obtain ⟨hs, hlt⟩ := h a (List.mem_cons_self _ _)
    have hl : isLocked u a.env.now = true := by simp [isLocked, hlock, hlt]
    have hstep := login_locked cfg a db sid u hsid hfind hl hs
    obtain ⟨ih1, ih2⟩ := ih (fun b hb => h b (List.mem_cons_of_mem _ hb))
    constructor
    · simp only [loginResponses, hstep, ih1, List.length_cons, List.replicate_succ]
    · rw [runLogins_cons, hstep]; exact ih2

/-! ## The lockout counter -/

/-- C1: on an account with `loginAttempts = 0` and no lock, five login requests
in a row that submit a wrong password leave `lockUntil` at the clock of the
fifth plus thirty minutes; every login request after them that submits a
password, right or wrong, at a time before that instant is answered 423
(account locked) and writes nothing. -/
theorem C1_five_failures_lock (cfg : Config) (db : Db) (sid : String) (u : User)
    (first4 : List LoginAttempt) (fifth : LoginAttempt)
    (hsid : sid ≠ "") (hfind : findOneByStudentId db.users sid = some u)
    (h0 : u.loginAttempts = 0) (hnl : u.lockUntil = none) (hlen : first4.length = 4)
    (hwrong : ∀ a ∈ first4 ++ [fifth], wrongFor cfg sid u.password a) :
    ∃ u5, findOneByStudentId (runLogins cfg db (first4 ++ [fifth])).users sid = some u5 ∧
      u5.lockUntil = some (fifth.env.now + 30 * 60 * 1000) ∧
      ∀ later : List LoginAttempt,
        (∀ a ∈ later, submitsFor sid a ∧ a.env.now < fifth.env.now + 30 * 60 * 1000) →
        loginResponses cfg (runLogins cfg db (first4 ++ [fifth])) later =
            List.replicate later.length (fail 423 "账户已被锁定，请稍后再试") ∧
          runLogins cfg (runLogins cfg db (first4 ++ [fifth])) later =
            runLogins cfg db (first4 ++ [fifth]) := by
  obtain ⟨u4, hf4, ha4, hl4, hp4⟩ := runLogins_wrong cfg sid hsid first4 db u hfind hnl
    (by omega) (fun a ha => hwrong a (List.mem_append_left _ ha))
  have hunl : isLocked u4 fifth.env.now = false := by simp [isLocked, hl4]
  have hw5 : wrongFor cfg sid u4.password fifth := by
    rw [hp4]; exact hwrong fifth (by simp)
  obtain ⟨_, u5, hf5, _, hl5, _, _⟩ :=
    login_wrong_password cfg fifth (runLogins cfg db first4) sid u4 hsid hf4 hunl hw5
  have hrun : runLogins cfg db (first4 ++ [fifth]) =
      (login cfg fifth.env (runLogins cfg db first4) fifth.req fifth.body).2 := by
    rw [runLogins_append]; rfl
  have hlock : u5.lockUntil = some (fifth.env.now + 30 * 60 * 1000) := by
    rw [hl5, if_pos (by omega)]; rfl
  rw [hrun]
  refine ⟨u5, hf5, hlock, ?_⟩
  intro later hlater
  exact runLogins_locked cfg sid hsid _ u5 _ hf5 hlock later hlater

theorem C1_five_failures_lock_witness :
    ∃ u5, findOneByStudentId (runLogins sampleConfig sampleDb
        ([sampleLogin 1000 "a", sampleLogin 2000 "b", sampleLogin 3000 "c",
          sampleLogin 4000 "d"] ++ [sampleLogin 5000 "e"])).users "20240001" = some u5 ∧
      u5.lockUntil = some ((sampleLogin 5000 "e").env.now + 30 * 60 * 1000) ∧
      ∀ later : List LoginAttempt,
        (∀ a ∈ later, submitsFor "20240001" a ∧
          a.env.now < (sampleLogin 5000 "e").env.now + 30 * 60 * 1000) →
        loginResponses sampleConfig (runLogins sampleConfig sampleDb
          ([sampleLogin 1000 "a", sampleLogin 2000 "b", sampleLogin 3000 "c",
            sampleLogin 4000 "d"] ++ [sampleLogin 5000 "e"])) later =
            List.replicate later.length (fail 423 "账户已被锁定，请稍后再试") ∧
          runLogins sampleConfig (runLogins sampleConfig sampleDb
            ([sampleLogin 1000 "a", sampleLogin 2000 "b", sampleLogin 3000 "c",
              sampleLogin 4000 "d"] ++ [sampleLogin 5000 "e"])) later =
            runLogins sampleConfig sampleDb
              ([sampleLogin 1000 "a", sampleLogin 2000 "b", sampleLogin 3000 "c",
                sampleLogin 4000 "d"] ++ [sampleLogin 5000 "e"]) :=
  C1_five_failures_lock sampleConfig sampleDb "20240001" sampleStudent
    [sampleLogin 1000 "a", sampleLogin 2000 "b", sampleLogin 3000 "c", sampleLogin 4000 "d"]
    (sampleLogin 5000 "e") (by decide) (by decide) rfl rfl rfl
    (by
      intro a ha
      simp only [List.cons_append, List.nil_append, List.mem_cons, List.mem_singleton,
        List.not_mem_nil, or_false] at ha
      rcases ha with h | h | h | h | h <;> subst h <;>
        exact ⟨⟨rfl, by decide⟩, by decide⟩)

/-- C2: for an account whose `lockUntil` is later than the clock and for every
submitted password, login answers 423 (account locked) whatever the hash
comparison would say, carries no token and writes nothing: `loginAttempts`,
`lockUntil` and `lastLogin` of the account stay as they are. -/
theorem C2_locked_refused_before_compare (cfg : Config) (env : Env) (db : Db) (req : ReqInfo)
    (sid pw : String) (u : User) (t : Time)
    (hsid : sid ≠ "") (hpw : pw ≠ "") (hfind : findOneByStudentId db.users sid = some u)
    (hlock : u.lockUntil = some t) (hlt : env.now < t) :
    login cfg env db req ⟨some sid, some pw⟩ = (fail 423 "账户已被锁定，请稍后再试", db) ∧
    (login cfg env db req ⟨some sid, some pw⟩).1.status = 423 ∧
    (login cfg env db req ⟨some sid, some pw⟩).1.payload = Payload.empty ∧
    findOneByStudentId (login cfg env db req ⟨some sid, some pw⟩).2.users sid = some u ∧
    ∀ cfg2 : Config,
      login cfg2 env db req ⟨some sid, some pw⟩ = login cfg env db req ⟨some sid, some pw⟩ := by
  have key : ∀ c : Config,
      login c env db req ⟨some sid, some pw⟩ = (fail 423 "账户已被锁定，请稍后再试", db) := by
    intro c
    have hl : isLocked u env.now = true := by simp [isLocked, hlock, hlt]
    exact login_locked c ⟨env, req, ⟨some sid, some pw⟩⟩ db sid u hsid hfind hl
      ⟨rfl, by simp [truthy, hpw]⟩
  refine ⟨key cfg, ?_, ?_, ?_, ?_⟩
  · rw [key cfg]; rfl
  · rw [key cfg]; rfl
  · rw [key cfg]; exact hfind
  · intro c; rw [key c, key cfg]

theorem C2_locked_refused_before_compare_witness :
    login sampleConfig ⟨1000, true⟩
        ⟨[{ sampleStudent with loginAttempts := 5, lockUntil := some 2000 }], [], []⟩
        sampleReq ⟨some "20240001", some "secret1"⟩ =
      (fail 423 "账户已被锁定，请稍后再试",
        ⟨[{ sampleStudent with loginAttempts := 5, lockUntil := some 2000 }], [], []⟩) :=
  (C2_locked_refused_before_compare sampleConfig ⟨1000, true⟩
    ⟨[{ sampleStudent with loginAttempts := 5, lockUntil := some 2000 }], [], []⟩
    sampleReq "20240001" "secret1"
    { sampleStudent with loginAttempts := 5, lockUntil := some 2000 } 2000
    (by decide) (by decide) (by decide) rfl (by decide)).1

/-! ## Lemmas on the stored tickets -/

theorem findById_id {feedbacks : List Feedback} {i : ObjectId} {f : Feedback}
    (h : findById feedbacks i = some f) : f._id = i := by
  have := List.find?_some h
  simpa using this

theorem findById_mem {feedbacks : List Feedback} {i : ObjectId} {f : Feedback}
    (h : findById feedbacks i = some f) : f ∈ feedbacks :=
  List.mem_of_find?_eq_some h

theorem stampFeedback_id (now : Time) (old new : Feedback) (h : new._id = old._id) :
    (stampFeedback now old new)._id = old._id := by
  unfold stampFeedback
  by_cases hn : new = old
  · simp [hn]
  · simp [hn, h]

theorem stampFeedback_status (now : Time) (old new : Feedback) :
    (stampFeedback now old new).status = new.status := by
  unfold stampFeedback
  by_cases hn : new = old
  · simp [hn]
  · simp [hn]

theorem stampFeedback_responses (now : Time) (old new : Feedback) :
    (stampFeedback now old new).responses = new.responses := by
  unfold stampFeedback
  by_cases hn : new = old
  · simp [hn]
  · simp [hn]

theorem stampFeedback_resolvedAt (now : Time) (old new : Feedback) :
    (stampFeedback now old new).resolvedAt = new.resolvedAt := by
  unfold stampFeedback
  by_cases hn : new = old
  · simp [hn]
  · simp [hn]

theorem findById_saveFeedback (now : Time) (feedbacks : List Feedback) (i : ObjectId)
    (old new : Feedback) (hfind : findById feedbacks i = some old) (hid : new._id = old._id) :
    findById (saveFeedback now feedbacks old new) i = some (stampFeedback now old new) := by
  unfold findById saveFeedback
  have hold := findById_id hfind
  apply find_map_replace _ _ _ old _ _ _ feedbacks hfind
  · simp [stampFeedback_id now old new hid, hold]
  · intro x
    by_cases hx : x._id = old._id
    · left; simp [hx]
    · right; simp [hx]
  · simp

theorem applyStatusUpdate_id (now : Time) (reqUser : User) (f : Feedback) (body : StatusBody) :
    (applyStatusUpdate now reqUser f body)._id = f._id := by
  unfold applyStatusUpdate
  by_cases h1 : truthy body.response = true <;>
    by_cases h2 : body.status = some "resolved" <;> simp [h1, h2]

theorem applyStatusUpdate_status (now : Time) (reqUser : User) (f : Feedback)
    (body : StatusBody) : (applyStatusUpdate now reqUser f body).status = body.status := by
  unfold applyStatusUpdate
  by_cases h1 : truthy body.response = true <;>
    by_cases h2 : body.status = some "resolved" <;> simp [h1, h2]

theorem applyStatusUpdate_responses (now : Time) (reqUser : User) (f : Feedback)
    (body : StatusBody) :
    (applyStatusUpdate now reqUser f body).responses =
      if truthy body.response then
        f.responses ++ [⟨sanitizeInput (body.response.getD ""), reqUser._id, reqUser.name, now⟩]
      else f.responses := by
  unfold applyStatusUpdate
  by_cases h1 : truthy body.response = true <;>
    by_cases h2 : body.status = some "resolved" <;> simp [h1, h2]

theorem applyStatusUpdate_resolvedAt (now : Time) (reqUser : User) (f : Feedback)
    (body : StatusBody) :
    (applyStatusUpdate now reqUser f body).resolvedAt =
      if body.status = some "resolved" then some now else f.resolvedAt := by
  unfold applyStatusUpdate
  by_cases h1 : truthy body.response = true <;>
    by_cases h2 : body.status = some "resolved" <;> simp [h1, h2]

theorem adminOnly_admin (reqUser : User)
    (h : reqUser.role = "admin" ∨ reqUser.role = "superadmin") : adminOnly reqUser = none := by
  unfold adminOnly
  rcases h with h | h <;> simp [h]

theorem adminOnly_student (reqUser : User) (h : reqUser.role = "student") :
    adminOnly reqUser = some (fail 403 "无权限访问") := by
  unfold adminOnly
  simp [h]

theorem logAction_feedbacks (env : Env) (db : Db) (userId : ObjectId) (action resource : String)
    (resourceId : ObjectId) (details : List (String × Option String)) (req : ReqInfo) :
    (logAction env db userId action resource resourceId details req).feedbacks = db.feedbacks := by
  unfold logAction
  by_cases h : env.auditOk = true <;> simp [h]

/-- An accepted status update of an administrator: the response carries the
saved ticket and the store holds it under the same id. -/
theorem updateStatus_accepted (env : Env) (db : Db) (reqUser : User) (req : ReqInfo)
    (i : ObjectId) (f : Feedback) (body : StatusBody)
    (hadmin : reqUser.role = "admin" ∨ reqUser.role = "superadmin")
    (hfind : findById db.feedbacks i = some f) (hvalid : validStatus body.status = true) :
    (updateStatus env db reqUser req (some i) body).1 =
        ⟨200, true, some "状态更新成功",
          Payload.feedback (stampFeedback env.now f (applyStatusUpdate env.now reqUser f body))⟩ ∧
      findById (updateStatus env db reqUser req (some i) body).2.feedbacks i =
        some (stampFeedback env.now f (applyStatusUpdate env.now reqUser f body)) := by
  have hv : validStatus (applyStatusUpdate env.now reqUser f body).status = true := by
    rw [applyStatusUpdate_status]; exact hvalid
  have hstep : updateStatus env db reqUser req (some i) body =
      (⟨200, true, some "状态更新成功",
          Payload.feedback (stampFeedback env.now f (applyStatusUpdate env.now reqUser f body))⟩,
        logAction env { db with feedbacks := (saveFeedback env.now db.feedbacks f
            (applyStatusUpdate env.now reqUser f body)) }
          reqUser._id "update_status" "feedback" f._id [("status", body.status)] req) := by
    simp [updateStatus, adminOnly_admin reqUser hadmin, updateStatusHandler, hfind, hv]
  rw [hstep]
  refine ⟨rfl, ?_⟩
  rw [logAction_feedbacks]
  exact findById_saveFeedback env.now db.feedbacks i f _ hfind (applyStatusUpdate_id _ _ _ _)

/-- A status outside the enumeration: the save is refused and nothing is
written. -/
theorem updateStatus_refused (env : Env) (db : Db) (reqUser : User) (req : ReqInfo)
    (i : ObjectId) (f : Feedback) (body : StatusBody)
    (hadmin : reqUser.role = "admin" ∨ reqUser.role = "superadmin")
    (hfind : findById db.feedbacks i = some f) (hvalid : validStatus body.status = false) :
    updateStatus env db reqUser req (some i) body = (fail 500 "更新状态失败", db) := by
  have hv : validStatus (applyStatusUpdate env.now reqUser f body).status = false := by
    rw [applyStatusUpdate_status]; exact hvalid
  simp [updateStatus, adminOnly_admin reqUser hadmin, updateStatusHandler, hfind, hv]

/-! ## Access checks -/

/-- C3: a caller whose role is `student` gets 403 from the status-update
route for every ticket id (own ticket, ticket of another account, id of no
ticket, malformed id) and every body, and the store is left as it is. -/
theorem C3_student_status_update_forbidden (env : Env) (db : Db) (reqUser : User)
    (req : ReqInfo) (id : Option ObjectId) (body : StatusBody)
    (hrole : reqUser.role = "student") :
    updateStatus env db reqUser req id body = (fail 403 "无权限访问", db) ∧
    (updateStatus env db reqUser req id body).1.status = 403 ∧
    (updateStatus env db reqUser req id body).2.feedbacks = db.feedbacks := by
  have h : updateStatus env db reqUser req id body = (fail 403 "无权限访问", db) := by
    simp [updateStatus, adminOnly_student reqUser hrole]
  rw [h]
  exact ⟨rfl, rfl, rfl⟩

theorem C3_student_status_update_forbidden_witness :
    updateStatus ⟨100, true⟩ sampleDb sampleStudent sampleReq (some 10)
        ⟨some "resolved", some "done"⟩ = (fail 403 "无权限访问", sampleDb) :=
  (C3_student_status_update_forbidden ⟨100, true⟩ sampleDb sampleStudent sampleReq (some 10)
    ⟨some "resolved", some "done"⟩ rfl).1

/-- C4: reading an existing ticket by id is answered 403 exactly when the
caller's role is `student` and the caller's account id differs from the
ticket's owner id; in every other case the ticket is returned with status 200. -/
theorem C4_read_by_id_forbidden_iff (db : Db) (reqUser : User) (i : ObjectId) (f : Feedback)
    (hfind : findById db.feedbacks i = some f) :
    ((getFeedback db reqUser (some i)).1.status = 403 ↔
      (reqUser.role = "student" ∧ reqUser._id ≠ f.user)) ∧
    (¬ (reqUser.role = "student" ∧ reqUser._id ≠ f.user) →
      getFeedback db reqUser (some i) = (⟨200, true, none, Payload.feedback f⟩, db)) := by
  by_cases hden : f.user ≠ reqUser._id ∧ reqUser.role = "student"
  · have h : getFeedback db reqUser (some i) = (fail 403 "无权查看此反馈", db) := by
      simp only [getFeedback, hfind]
      rw [if_pos hden]
    rw [h]
    constructor
    · constructor
      · intro _; exact ⟨hden.2, fun e => hden.1 e.symm⟩
      · intro _; rfl
    · intro hn; exact absurd ⟨hden.2, fun e => hden.1 e.symm⟩ hn
  · have h : getFeedback db reqUser (some i) = (⟨200, true, none, Payload.feedback f⟩, db) := by
      simp only [getFeedback, hfind]
      rw [if_neg hden]
    rw [h]
    constructor
    · constructor
      · intro h403; simp at h403
      · intro hs; exact absurd ⟨fun e => hs.2 e.symm, hs.1⟩ hden
    · intro _; rfl

theorem C4_read_by_id_forbidden_iff_witness :
    ((getFeedback sampleDb sampleStudent2 (some 10)).1.status = 403 ↔
      (sampleStudent2.role = "student" ∧ sampleStudent2._id ≠ sampleAnonymous.user)) ∧
    (¬ (sampleStudent2.role = "student" ∧ sampleStudent2._id ≠ sampleAnonymous.user) →
      getFeedback sampleDb sampleStudent2 (some 10) =
        (⟨200, true, none, Payload.feedback sampleAnonymous⟩, sampleDb)) :=
  C4_read_by_id_forbidden_iff sampleDb sampleStudent2 10 sampleAnonymous (by decide)

/-! ## Anonymity -/

/-- C5: the read by id and the status update hand an administrator who is not
the owner the anonymous ticket with its stored owner reference, while the
listing of the same store puts the placeholder in its place. -/
theorem C5_read_by_id_returns_owner_reference :
    sampleAnonymous.isAnonymous = true ∧ sampleAdmin._id ≠ sampleAnonymous.user ∧
    sampleAnonymous.user = sampleStudent._id ∧
    (getFeedback sampleDb sampleAdmin (some 10)).1 =
      ⟨200, true, none, Payload.feedback sampleAnonymous⟩ ∧
    (updateStatus ⟨100, true⟩ sampleDb sampleAdmin sampleReq (some 10)
        ⟨some "processing", none⟩).1 =
      ⟨200, true, some "状态更新成功", Payload.feedback
        { sampleAnonymous with status := some "processing", updatedAt := 100 }⟩ ∧
    (adminFeedbacks sampleDb sampleAdmin ⟨none, none, some "low", none, none⟩).1 =
      ⟨200, true, none, Payload.feedbacks
        [{ listedFeedback sampleDb.users sampleAnonymous with
            user := some ⟨none, "匿名", "匿名用户"⟩ }] ⟨1, 20, 1, some 1⟩⟩ := by
  decide

/-- C6: in the result of the admin listing every ticket with `isAnonymous`
set carries the placeholder owner (studentId 匿名, name 匿名用户), every other
ticket carries the `_id`, studentId and name of its stored owner account, and
the store after the listing is the store before it. -/
theorem C6_admin_listing_redaction (db : Db) (reqUser : User) (q : ListQuery)
    (fs : List ListedFeedback) (pg : Pagination)
    (h : (adminFeedbacks db reqUser q).1.payload = Payload.feedbacks fs pg) :
    (adminFeedbacks db reqUser q).2 = db ∧
    ∀ lf ∈ fs, ∃ f ∈ db.feedbacks, lf._id = f._id ∧ lf.isAnonymous = f.isAnonymous ∧
      (lf.isAnonymous = true → lf.user = some ⟨none, "匿名", "匿名用户"⟩) ∧
      (lf.isAnonymous = false → ∀ u, db.users.find? (fun v => v._id == f.user) = some u →
        lf.user = some ⟨some u._id, u.studentId, u.name⟩) := by
  constructor
  · unfold adminFeedbacks adminFeedbacksHandler
    cases adminOnly reqUser with
    | some res => rfl
    | none =>
      by_cases hneg : q.page.getD 1 = 0 ∧ q.limit.getD 20 ≠ 0
      · simp only [if_pos hneg]
      · simp only [if_neg hneg]
  · unfold adminFeedbacks at h
    cases hadm : adminOnly reqUser with
    | some res =>
      rw [hadm] at h
      unfold adminOnly at hadm
      split at hadm
      · cases hadm; simp [fail] at h
      · cases hadm
    | none =>
      rw [hadm] at h
      unfold adminFeedbacksHandler at h
      by_cases hneg : q.page.getD 1 = 0 ∧ q.limit.getD 20 ≠ 0
      · simp only [if_pos hneg, fail] at h
        cases h
      · simp only [if_neg hneg] at h
        injection h with hfs _
        intro lf hlf
        rw [← hfs, List.mem_map] at hlf
        obtain ⟨f, hf, rfl⟩ := hlf
        have hmem : f ∈ db.feedbacks := by
          have h1 : f ∈ List.drop ((q.page.getD 1 - 1) * q.limit.getD 20)
              ((db.feedbacks.filter (matchesQuery q)).insertionSort listingOrder) := by
            by_cases hl : q.limit.getD 20 = 0
            · simpa [hl] using hf
            · rw [if_neg hl] at hf
              exact List.mem_of_mem_take hf
          have h2 := List.mem_of_mem_drop h1
          rw [List.mem_insertionSort] at h2
          exact (List.mem_filter.mp h2).1
        refine ⟨f, hmem, rfl, rfl, ?_, ?_⟩
        · intro ha
          have ha1 : f.isAnonymous = true := ha
          simp [listedFeedback, ha1, anonymousUser]
        · intro ha u hu
          have ha1 : f.isAnonymous = false := ha
          simp [listedFeedback, ha1, populateUser, hu]

theorem C6_admin_listing_redaction_witness :
    (adminFeedbacks sampleDb sampleAdmin ⟨none, none, none, none, none⟩).2 = sampleDb ∧
    ∀ lf ∈ [{ listedFeedback sampleDb.users sampleSigned with
                user := some ⟨some 1, "20240001", "Li"⟩ },
            { listedFeedback sampleDb.users sampleAnonymous with
                user := some ⟨none, "匿名", "匿名用户"⟩ }],
      ∃ f ∈ sampleDb.feedbacks, lf._id = f._id ∧ lf.isAnonymous = f.isAnonymous ∧
      (lf.isAnonymous = true → lf.user = some ⟨none, "匿名", "匿名用户"⟩) ∧
      (lf.isAnonymous = false →
        ∀ u, sampleDb.users.find? (fun v => v._id == f.user) = some u →
          lf.user = some ⟨some u._id, u.studentId, u.name⟩) :=
  C6_admin_listing_redaction sampleDb sampleAdmin ⟨none, none, none, none, none⟩ _
    ⟨1, 20, 2, some 1⟩ (by decide)

/-! ## The status workflow -/

/-- C7: for an existing ticket in any status of the enumeration and any new
status of the enumeration (the same one, or leaving `resolved` or `rejected`,
included), the status update of an administrator is answered 200 and the
returned and stored ticket has the new status. -/
theorem C7_any_status_transition (env : Env) (db : Db) (reqUser : User) (req : ReqInfo)
    (i : ObjectId) (f : Feedback) (s t : String) (response : Option String)
    (hadmin : reqUser.role = "admin" ∨ reqUser.role = "superadmin")
    (hfind : findById db.feedbacks i = some f) (_hs : f.status = some s)
    (_hsm : s ∈ statusEnum) (htm : t ∈ statusEnum) :
    ∃ f1, (updateStatus env db reqUser req (some i) ⟨some t, response⟩).1 =
        ⟨200, true, some "状态更新成功", Payload.feedback f1⟩ ∧
      findById (updateStatus env db reqUser req (some i) ⟨some t, response⟩).2.feedbacks i =
        some f1 ∧
      f1.status = some t := by
  have hv : validStatus (StatusBody.mk (some t) response).status = true := by
    simp [validStatus, htm]
  obtain ⟨h1, h2⟩ := updateStatus_accepted env db reqUser req i f ⟨some t, response⟩
    hadmin hfind hv
  refine ⟨_, h1, h2, ?_⟩
  rw [stampFeedback_status, applyStatusUpdate_status]

theorem C7_any_status_transition_witness :
    ∃ f1, (updateStatus ⟨100, true⟩ sampleDb sampleAdmin sampleReq (some 11)
        ⟨some "pending", none⟩).1 =
        ⟨200, true, some "状态更新成功", Payload.feedback f1⟩ ∧
      findById (updateStatus ⟨100, true⟩ sampleDb sampleAdmin sampleReq (some 11)
        ⟨some "pending", none⟩).2.feedbacks 11 = some f1 ∧
      f1.status = some "pending" :=
  C7_any_status_transition ⟨100, true⟩ sampleDb sampleAdmin sampleReq 11 sampleSigned
    "resolved" "pending" none (by decide) (by decide) rfl (by decide) (by decide)

/-- C8: an accepted status update with a non-empty response text leaves the
ticket's responses equal to the earlier ones followed by one entry with content
`sanitizeInput` of the text, the acting administrator's id and name and the
clock; with the text absent or empty the responses are unchanged; either way
every earlier entry stays at its position. -/
theorem C8_response_appended (env : Env) (db : Db) (reqUser : User) (req : ReqInfo)
    (i : ObjectId) (f : Feedback) (body : StatusBody)
    (hadmin : reqUser.role = "admin" ∨ reqUser.role = "superadmin")
    (hfind : findById db.feedbacks i = some f) (hvalid : validStatus body.status = true) :
    ∃ f1, (updateStatus env db reqUser req (some i) body).1.payload = Payload.feedback f1 ∧
      findById (updateStatus env db reqUser req (some i) body).2.feedbacks i = some f1 ∧
      (∀ text, body.response = some text → text ≠ "" →
        f1.responses = f.responses ++
          [⟨sanitizeInput text, reqUser._id, reqUser.name, env.now⟩]) ∧
      (body.response = none ∨ body.response = some "" → f1.responses = f.responses) ∧
      (∀ k, k < f.responses.length → f1.responses[k]? = f.responses[k]?) := by
  obtain ⟨h1, h2⟩ := updateStatus_accepted env db reqUser req i f body hadmin hfind hvalid
  refine ⟨_, by rw [h1], h2, ?_, ?_, ?_⟩
  · intro text htext hne
    rw [stampFeedback_responses, applyStatusUpdate_responses]
    simp [htext, truthy, hne]
  · intro hnone
    rw [stampFeedback_responses, applyStatusUpdate_responses]
    rcases hnone with hn | hn <;> simp [hn, truthy]
  · intro k hk
    rw [stampFeedback_responses, applyStatusUpdate_responses]
    by_cases ht : truthy body.response = true
    · rw [if_pos ht, List.getElem?_append_left hk]
    · rw [if_neg ht]

theorem C8_response_appended_witness :
    ∃ f1, (updateStatus ⟨100, true⟩ sampleDb sampleAdmin sampleReq (some 10)
        ⟨some "processing", some " <b>ok</b> "⟩).1.payload = Payload.feedback f1 ∧
      findById (updateStatus ⟨100, true⟩ sampleDb sampleAdmin sampleReq (some 10)
        ⟨some "processing", some " <b>ok</b> "⟩).2.feedbacks 10 = some f1 ∧
      (∀ text, (StatusBody.mk (some "processing") (some " <b>ok</b> ")).response = some text →
        text ≠ "" →
        f1.responses = sampleAnonymous.responses ++
          [⟨sanitizeInput text, sampleAdmin._id, sampleAdmin.name, 100⟩]) ∧
      ((StatusBody.mk (some "processing") (some " <b>ok</b> ")).response = none ∨
        (StatusBody.mk (some "processing") (some " <b>ok</b> ")).response = some "" →
        f1.responses = sampleAnonymous.responses) ∧
      (∀ k, k < sampleAnonymous.responses.length →
        f1.responses[k]? = sampleAnonymous.responses[k]?) :=
  C8_response_appended ⟨100, true⟩ sampleDb sampleAdmin sampleReq 10 sampleAnonymous
    ⟨some "processing", some " <b>ok</b> "⟩ (by decide) (by decide) (by decide)

theorem runUpdates_cons (db : Db) (i : ObjectId) (r : StatusRequest)
    (rest : List StatusRequest) :
    runUpdates db i (r :: rest) =
      runUpdates (updateStatus r.env db r.reqUser r.req (some i) r.body).2 i rest := rfl

/-- One status update of an administrator on a stored ticket: the ticket stays
stored under its id, and its resolution stamp is the clock when the new status
is `resolved` and the earlier stamp otherwise. -/
theorem updateStatus_resolvedAt (db : Db) (i : ObjectId) (f : Feedback) (r : StatusRequest)
    (hadmin : r.reqUser.role = "admin" ∨ r.reqUser.role = "superadmin")
    (hfind : findById db.feedbacks i = some f) :
    ∃ f1, findById (updateStatus r.env db r.reqUser r.req (some i) r.body).2.feedbacks i =
        some f1 ∧
      f1.resolvedAt =
        if r.body.status = some "resolved" then some r.env.now else f.resolvedAt := by
  by_cases hv : validStatus r.body.status = true
  · obtain ⟨_, h2⟩ := updateStatus_accepted r.env db r.reqUser r.req i f r.body hadmin hfind hv
    refine ⟨_, h2, ?_⟩
    rw [stampFeedback_resolvedAt, applyStatusUpdate_resolvedAt]
  · have hv2 : validStatus r.body.status = false := by simpa using hv
    rw [updateStatus_refused r.env db r.reqUser r.req i f r.body hadmin hfind hv2]
    refine ⟨f, hfind, ?_⟩
    have hne : r.body.status ≠ some "resolved" := by
      intro h
      rw [h] at hv2
      simp [validStatus, statusEnum] at hv2
    rw [if_neg hne]

/-- C9: two status updates with new status `resolved`, at clock values t1 and
then t2, stamp `resolvedAt` both times: it is t1 after the first and t2 after
the second, whatever it was before. -/
theorem C9_resolved_twice_overwrites (db : Db) (i : ObjectId) (f : Feedback)
    (r1 r2 : StatusRequest)
    (hfind : findById db.feedbacks i = some f)
    (hadmin1 : r1.reqUser.role = "admin" ∨ r1.reqUser.role = "superadmin")
    (hadmin2 : r2.reqUser.role = "admin" ∨ r2.reqUser.role = "superadmin")
    (h1 : r1.body.status = some "resolved") (h2 : r2.body.status = some "resolved") :
    ∃ f1 f2, findById (runUpdates db i [r1]).feedbacks i = some f1 ∧
      f1.resolvedAt = some r1.env.now ∧
      findById (runUpdates db i [r1, r2]).feedbacks i = some f2 ∧
      f2.resolvedAt = some r2.env.now := by
  obtain ⟨f1, hf1, hr1⟩ := updateStatus_resolvedAt db i f r1 hadmin1 hfind
  obtain ⟨f2, hf2, hr2⟩ := updateStatus_resolvedAt _ i f1 r2 hadmin2 hf1
  rw [if_pos h1] at hr1
  rw [if_pos h2] at hr2
  exact ⟨f1, f2, hf1, hr1, hf2, hr2⟩

theorem C9_resolved_twice_overwrites_witness :
    ∃ f1 f2, findById (runUpdates sampleDb 11
        [sampleUpdate 100 (some "resolved") none]).feedbacks 11 = some f1 ∧
      f1.resolvedAt = some (sampleUpdate 100 (some "resolved") none).env.now ∧
      findById (runUpdates sampleDb 11 [sampleUpdate 100 (some "resolved") none,
        sampleUpdate 200 (some "resolved") none]).feedbacks 11 = some f2 ∧
      f2.resolvedAt = some (sampleUpdate 200 (some "resolved") none).env.now :=
  C9_resolved_twice_overwrites sampleDb 11 sampleSigned
    (sampleUpdate 100 (some "resolved") none) (sampleUpdate 200 (some "resolved") none)
    (by decide) (by decide) (by decide) rfl rfl

/-- C10, the claim fails: a ticket with `resolvedAt` unset is resolved at
clock 100, which stamps 100, and resolved again at clock 200, which changes
the stamp to 200. -/
theorem C10_resolvedAt_set_once_fails :
    (findById sampleDb.feedbacks 10).map (fun f => f.resolvedAt) = some none ∧
    (findById (runUpdates sampleDb 10
        [sampleUpdate 100 (some "resolved") none]).feedbacks 10).map
      (fun f => (f.status, f.resolvedAt)) = some (some "resolved", some 100) ∧
    (findById (runUpdates sampleDb 10 [sampleUpdate 100 (some "resolved") none,
        sampleUpdate 200 (some "resolved") none]).feedbacks 10).map
      (fun f => (f.status, f.resolvedAt)) = some (some "resolved", some 200) := by
  decide

/-- C10, amended: after any sequence of status updates of administrators on a
stored ticket, `resolvedAt` is the clock of the last update whose new status is
`resolved`, and the value it had before the sequence when no update has that
status; so it stays unset until the first such update and every later such
update overwrites it. -/
theorem C10_resolvedAt_last_resolved (i : ObjectId) (updates : List StatusRequest) :
    ∀ (db : Db) (f : Feedback), findById db.feedbacks i = some f →
      (∀ r ∈ updates, r.reqUser.role = "admin" ∨ r.reqUser.role = "superadmin") →
      ∃ f1, findById (runUpdates db i updates).feedbacks i = some f1 ∧
        f1.resolvedAt = lastResolved f.resolvedAt updates := by
  induction updates with
  | nil => intro db f hfind _; exact ⟨f, hfind, rfl⟩
  | cons r rest ih =>
    intro db f hfind hadmin
    obtain ⟨f1, hf1, hr1⟩ :=
      updateStatus_resolvedAt db i f r (hadmin r (List.mem_cons_self _ _)) hfind
    obtain ⟨f2, hf2, hr2⟩ := ih _ f1 hf1 (fun x hx => hadmin x (List.mem_cons_of_mem _ hx))
    refine ⟨f2, ?_, ?_⟩
    · rw [runUpdates_cons]; exact hf2
    · rw [hr2, hr1]; rfl

theorem C10_resolvedAt_last_resolved_witness :
    ∃ f1, findById (runUpdates sampleDb 10 [sampleUpdate 100 (some "resolved") none,
        sampleUpdate 150 (some "pending") none,
        sampleUpdate 200 (some "resolved") (some "done"),
        sampleUpdate 300 (some "rejected") none]).feedbacks 10 = some f1 ∧
      f1.resolvedAt = lastResolved sampleAnonymous.resolvedAt
        [sampleUpdate 100 (some "resolved") none, sampleUpdate 150 (some "pending") none,
         sampleUpdate 200 (some "resolved") (some "done"),
         sampleUpdate 300 (some "rejected") none] :=
  C10_resolvedAt_last_resolved 10 _ sampleDb sampleAnonymous (by decide) (by decide)

/-! ## The authentication middleware -/

/-- The middleware answers only with status 401 and no payload. -/
theorem authenticate_error (cfg : Config) (decode : String → Option Token) (env : Env)
    (db : Db) (authorization : Option String) (r : Response)
    (h : authenticate cfg decode env db authorization = Except.error r) :
    r.status = 401 ∧ r.success = false ∧ r.payload = Payload.empty := by
  unfold authenticate at h
  split at h
  · cases h; exact ⟨rfl, rfl, rfl⟩
  · split at h
    · cases h; exact ⟨rfl, rfl, rfl⟩
    · split at h
      · cases h; exact ⟨rfl, rfl, rfl⟩
      · split at h
        · cases h; exact ⟨rfl, rfl, rfl⟩
        · split at h
          · cases h; exact ⟨rfl, rfl, rfl⟩
          · cases h

/-- When the middleware calls `next()`: a non-empty bearer token that decodes,
is signed with the secret and has not expired, whose id is that of a stored,
active account. -/
theorem authenticate_ok_iff (cfg : Config) (decode : String → Option Token) (env : Env)
    (db : Db) (authorization : Option String) (u : User) :
    authenticate cfg decode env db authorization = Except.ok u ↔
      ∃ raw tok, bearerToken authorization = some raw ∧ raw ≠ "" ∧
        decode raw = some tok ∧ tok.key = cfg.jwtSecret ∧ env.now / 1000 < tok.exp ∧
        findUserById db.users tok.id = some u ∧ u.isActive = true := by
  constructor
  · intro h
    unfold authenticate at h
    split at h
    · cases h
    · rename_i raw hraw
      split at h
      · cases h
      · rename_i hne
        split at h
        · cases h
        · rename_i decoded hver
          split at h
          · cases h
          · rename_i user hfind
            split at h
            · cases h
            · rename_i hact
              cases h
              unfold jwtVerify at hver
              split at hver
              · cases hver
              · rename_i t hdec
                split at hver
                · rename_i hk
                  cases hver
                  exact ⟨raw, decoded, hraw, hne, hdec, hk.1, hk.2, hfind, by simpa using hact⟩
                · cases hver
  · rintro ⟨raw, tok, hraw, hne, hdec, hkey, hexp, hfind, hact⟩
    have hver : jwtVerify decode cfg.jwtSecret env.now raw = some tok := by
      simp [jwtVerify, hdec, hkey, hexp]
    simp [authenticate, hraw, hne, hver, hfind, hact]

/-- C11: the authentication middleware lets a request through exactly when
the `Authorization` header carries a non-empty bearer token that decodes, is
signed with the secret, has not expired, and names a stored account with
`isActive` set; it then puts exactly that stored account in `req.user` and the
handler runs with it.  In every other case (no header, no bearer token, a
token failing verification, an absent or inactive account) it answers 401 and
the handler does not run: the route's result is that answer and the unchanged
store, whatever the handler is. -/
theorem C11_authenticate_gate (cfg : Config) (decode : String → Option Token) (env : Env)
    (db : Db) (authorization : Option String) (handler : User → Response × Db) :
    (∀ u, authenticate cfg decode env db authorization = Except.ok u ↔
      ∃ raw tok, bearerToken authorization = some raw ∧ raw ≠ "" ∧
        decode raw = some tok ∧ tok.key = cfg.jwtSecret ∧ env.now / 1000 < tok.exp ∧
        findUserById db.users tok.id = some u ∧ u.isActive = true) ∧
    (∀ u, authenticate cfg decode env db authorization = Except.ok u →
      protectedRoute cfg decode env db authorization handler = handler u) ∧
    ((¬ ∃ u, authenticate cfg decode env db authorization = Except.ok u) →
      ∃ r, authenticate cfg decode env db authorization = Except.error r ∧
        r.status = 401 ∧ r.payload = Payload.empty ∧
        ∀ other : User → Response × Db,
          protectedRoute cfg decode env db authorization other = (r, db)) := by
  refine ⟨fun u => authenticate_ok_iff cfg decode env db authorization u, ?_, ?_⟩
  · intro u h
    simp [protectedRoute, h]
  · intro hno
    cases hres : authenticate cfg decode env db authorization with
    | ok u => exact absurd ⟨u, hres⟩ hno
    | error r =>
      obtain ⟨h1, _, h3⟩ := authenticate_error cfg decode env db authorization r hres
      refine ⟨r, rfl, h1, h3, ?_⟩
      intro other
      simp [protectedRoute, hres]

/-! ## Login: the three answers to a failed login -/

/-- An identifier with no account: 401 and nothing written. -/
theorem login_unknown (cfg : Config) (env : Env) (db : Db) (req : ReqInfo) (sid pw : String)
    (hsid : sid ≠ "") (hpw : pw ≠ "") (hfind : findOneByStudentId db.users sid = none) :
    login cfg env db req ⟨some sid, some pw⟩ = (fail 401 "学号或密码错误", db) := by
  have hts : truthy (some sid) = true := by simp [truthy, hsid]
  have htp : truthy (some pw) = true := by simp [truthy, hpw]
  simp [login, hts, htp, hfind]

/-- C12: a login for an identifier with no account and a login for an
existing, unlocked account with a wrong password get the same response (status
401, the same message, no payload); the response for a locked account has
another status (423) and another message. -/
theorem C12_uniform_login_failure (cfg : Config) (env1 env2 env3 : Env) (db1 db2 db3 : Db)
    (req1 req2 req3 : ReqInfo) (sid1 pw1 sid2 pw2 sid3 pw3 : String) (u2 u3 : User)
    (h1 : sid1 ≠ "" ∧ pw1 ≠ "" ∧ findOneByStudentId db1.users sid1 = none)
    (h2 : sid2 ≠ "" ∧ pw2 ≠ "" ∧ findOneByStudentId db2.users sid2 = some u2 ∧
      isLocked u2 env2.now = false ∧ cfg.bcryptCompare pw2 u2.password = false)
    (h3 : sid3 ≠ "" ∧ pw3 ≠ "" ∧ findOneByStudentId db3.users sid3 = some u3 ∧
      isLocked u3 env3.now = true) :
    (login cfg env1 db1 req1 ⟨some sid1, some pw1⟩).1 =
      (login cfg env2 db2 req2 ⟨some sid2, some pw2⟩).1 ∧
    (login cfg env1 db1 req1 ⟨some sid1, some pw1⟩).1 = fail 401 "学号或密码错误" ∧
    (login cfg env3 db3 req3 ⟨some sid3, some pw3⟩).1.status = 423 ∧
    (login cfg env3 db3 req3 ⟨some sid3, some pw3⟩).1.status ≠
      (login cfg env1 db1 req1 ⟨some sid1, some pw1⟩).1.status ∧
    (login cfg env3 db3 req3 ⟨some sid3, some pw3⟩).1.message ≠
      (login cfg env1 db1 req1 ⟨some sid1, some pw1⟩).1.message := by
  obtain ⟨hs1, hp1, hf1⟩ := h1
  obtain ⟨hs2, hp2, hf2, hu2, hw2⟩ := h2
  obtain ⟨hs3, hp3, hf3, hl3⟩ := h3
  have e1 := login_unknown cfg env1 db1 req1 sid1 pw1 hs1 hp1 hf1
  have e2 := (login_wrong_password cfg ⟨env2, req2, ⟨some sid2, some pw2⟩⟩ db2 sid2 u2 hs2 hf2
    hu2 ⟨⟨rfl, by simp [truthy, hp2]⟩, hw2⟩).1
  have e3 := login_locked cfg ⟨env3, req3, ⟨some sid3, some pw3⟩⟩ db3 sid3 u3 hs3 hf3 hl3
    ⟨rfl, by simp [truthy, hp3]⟩
  simp only at e2 e3
  rw [e1, e2, e3]
  refine ⟨rfl, rfl, rfl, ?_, ?_⟩ <;> simp [accountLocked, fail]

theorem C12_uniform_login_failure_witness :
    (login sampleConfig ⟨100, true⟩ sampleDb sampleReq ⟨some "20249999", some "x"⟩).1 =
      (login sampleConfig ⟨100, true⟩ sampleDb sampleReq ⟨some "20240001", some "x"⟩).1 :=
  (C12_uniform_login_failure sampleConfig ⟨100, true⟩ ⟨100, true⟩ ⟨100, true⟩ sampleDb sampleDb
    ⟨[{ sampleStudent with loginAttempts := 5, lockUntil := some 2000 }], [], []⟩
    sampleReq sampleReq sampleReq "20249999" "x" "20240001" "x" "20240001" "secret1"
    sampleStudent { sampleStudent with loginAttempts := 5, lockUntil := some 2000 }
    (by decide) (by decide) (by decide)).1

/-! ## The activity flag -/

/-- C13: the login handler has no check of `isActive`: the deactivated
account logs in with its identifier and correct password, is answered 200 and
is handed a token, where the claim has the login refused.  The authentication
middleware, the sibling path, does refuse the same account: a request with a
token for it is answered 401 and the handler does not run. -/
theorem C13_inactive_login_succeeds :
    sampleInactive.isActive = false ∧
    findOneByStudentId sampleDb2.users "20240004" = some sampleInactive ∧
    (login sampleConfig ⟨100, true⟩ sampleDb2 sampleReq
        ⟨some "20240004", some "secret4"⟩).1 =
      ⟨200, true, none, Payload.auth ⟨4, "student", 0, 604800, "key"⟩
        ⟨4, "20240004", "Zhao", "zhao@buct.edu.cn", "student"⟩⟩ ∧
    protectedRoute sampleConfig sampleDecode ⟨100, true⟩ sampleDb2 (some "Bearer t4")
        (fun v => getFeedback sampleDb2 v (some 10)) =
      (fail 401 "用户不存在或已被禁用", sampleDb2) := by
  decide

/-- The authentication middleware refuses every request whose bearer token
names a stored account with `isActive = false`: it answers 401 and the
protected handler does not run. -/
theorem authenticate_refuses_inactive (cfg : Config) (decode : String → Option Token)
    (env : Env) (db : Db) (authorization : Option String) (raw : String) (tok : Token)
    (u : User) (handler : User → Response × Db)
    (hraw : bearerToken authorization = some raw) (hdec : decode raw = some tok)
    (hfind : findUserById db.users tok.id = some u) (hinactive : u.isActive = false) :
    ∃ r, authenticate cfg decode env db authorization = Except.error r ∧ r.status = 401 ∧
      r.payload = Payload.empty ∧
      protectedRoute cfg decode env db authorization handler = (r, db) := by
  cases hres : authenticate cfg decode env db authorization with
  | ok v =>
    obtain ⟨raw1, tok1, hraw1, _, hdec1, _, _, hfind1, hact⟩ :=
      (authenticate_ok_iff cfg decode env db authorization v).mp hres
    rw [hraw] at hraw1
    cases hraw1
    rw [hdec] at hdec1
    cases hdec1
    rw [hfind] at hfind1
    cases hfind1
    rw [hinactive] at hact
    cases hact
  | error r =>
    obtain ⟨h1, _, h3⟩ := authenticate_error cfg decode env db authorization r hres
    refine ⟨r, rfl, h1, h3, ?_⟩
    simp [protectedRoute, hres]

/-! ## Login: the two outcomes of the password check -/

theorem logAction_users (env : Env) (db : Db) (userId : ObjectId) (action resource : String)
    (resourceId : ObjectId) (details : List (String × Option String)) (req : ReqInfo) :
    (logAction env db userId action resource resourceId details req).users = db.users := by
  unfold logAction
  by_cases h : env.auditOk = true <;> simp [h]

/-- C14: on an existing, unlocked account a wrong password is answered 401
with no token; the stored account then has `loginAttempts` one higher,
`lockUntil` equal to the clock plus thirty minutes when the raised count is 5
or more and unchanged otherwise, and its other fields (but `updatedAt`) as
before. -/
theorem C14_wrong_password_counts (cfg : Config) (env : Env) (db : Db) (req : ReqInfo)
    (sid pw : String) (u : User)
    (hsid : sid ≠ "") (hpw : pw ≠ "") (hfind : findOneByStudentId db.users sid = some u)
    (hunl : isLocked u env.now = false) (hwrong : cfg.bcryptCompare pw u.password = false) :
    (login cfg env db req ⟨some sid, some pw⟩).1 = fail 401 "学号或密码错误" ∧
    (login cfg env db req ⟨some sid, some pw⟩).1.payload = Payload.empty ∧
    ∃ u1, findOneByStudentId (login cfg env db req ⟨some sid, some pw⟩).2.users sid = some u1 ∧
      u1.loginAttempts = u.loginAttempts + 1 ∧
      u1.lockUntil =
        (if u.loginAttempts + 1 ≥ 5 then some (env.now + 30 * 60 * 1000) else u.lockUntil) ∧
      u1.password = u.password ∧ u1.lastLogin = u.lastLogin := by
  obtain ⟨hres, u1, hf1, ha1, hl1, hp1, hll1⟩ :=
    login_wrong_password cfg ⟨env, req, ⟨some sid, some pw⟩⟩ db sid u hsid hfind hunl
      ⟨⟨rfl, by simp [truthy, hpw]⟩, hwrong⟩
  simp only at hres hf1
  refine ⟨hres, ?_, u1, hf1, ha1, hl1, hp1, hll1⟩
  rw [hres]; rfl

theorem C14_wrong_password_counts_witness :
    (login sampleConfig ⟨100, true⟩
        ⟨[{ sampleStudent with loginAttempts := 4 }], [], []⟩ sampleReq
        ⟨some "20240001", some "bad"⟩).2.users =
      [{ sampleStudent with loginAttempts := 5, lockUntil := some 1800100, updatedAt := 100 }] ∧
    (login sampleConfig ⟨100, true⟩
        ⟨[{ sampleStudent with loginAttempts := 4 }], [], []⟩ sampleReq
        ⟨some "20240001", some "bad"⟩).1 = fail 401 "学号或密码错误" :=
  ⟨by decide,
   (C14_wrong_password_counts sampleConfig ⟨100, true⟩
    ⟨[{ sampleStudent with loginAttempts := 4 }], [], []⟩ sampleReq "20240001" "bad"
    { sampleStudent with loginAttempts := 4 } (by decide) (by decide) (by decide) (by decide)
    (by decide)).1⟩

/-- C15: on an existing, unlocked account the correct password is answered 200
with a token for the account, whatever `loginAttempts` and the expired
`lockUntil` were; the stored account then has `loginAttempts = 0`, `lockUntil`
unset and `lastLogin` equal to the clock. -/
theorem C15_successful_login_resets (cfg : Config) (env : Env) (db : Db) (req : ReqInfo)
    (sid pw : String) (u : User)
    (hsid : sid ≠ "") (hpw : pw ≠ "") (hfind : findOneByStudentId db.users sid = some u)
    (hunl : isLocked u env.now = false) (hright : cfg.bcryptCompare pw u.password = true) :
    (login cfg env db req ⟨some sid, some pw⟩).1.status = 200 ∧
    (∃ token profile, (login cfg env db req ⟨some sid, some pw⟩).1.payload =
        Payload.auth token profile ∧ token.id = u._id ∧ token.role = u.role) ∧
    ∃ u1, findOneByStudentId (login cfg env db req ⟨some sid, some pw⟩).2.users sid = some u1 ∧
      u1.loginAttempts = 0 ∧ u1.lockUntil = none ∧ u1.lastLogin = some env.now := by
  have hts : truthy (some sid) = true := by simp [truthy, hsid]
  have htp : truthy (some pw) = true := by simp [truthy, hpw]
  have hstep : login cfg env db req ⟨some sid, some pw⟩ =
      (⟨200, true, none, Payload.auth
          ⟨u._id, u.role, env.now / 1000, env.now / 1000 + cfg.jwtExpire, cfg.jwtSecret⟩
          ⟨u._id, u.studentId, u.name, u.email, u.role⟩⟩,
        logAction env { db with users := (saveUser env.now db.users u
            ({ u with loginAttempts := 0, lockUntil := none, lastLogin := some env.now } : User)) }
          u._id "login" "user" u._id [] req) := by
    simp [login, hts, htp, hfind, hunl, comparePassword, hright]
  rw [hstep]
  refine ⟨rfl, ⟨_, _, rfl, rfl, rfl⟩, ?_⟩
  rw [logAction_users]
  have hsave := findOne_saveUser env.now db.users sid u
    ({ u with loginAttempts := 0, lockUntil := none, lastLogin := some env.now } : User) hfind
    (show u.studentId = sid from findOne_studentId hfind)
  refine ⟨_, hsave, ?_⟩
  unfold stampUser
  by_cases hsame :
      ({ u with loginAttempts := 0, lockUntil := none, lastLogin := some env.now } : User) = u
  · rw [if_pos hsame]
    refine ⟨?_, ?_, ?_⟩
    · have := congrArg User.loginAttempts hsame; exact this.symm
    · have := congrArg User.lockUntil hsame; exact this.symm
    · have := congrArg User.lastLogin hsame; exact this.symm
  · rw [if_neg hsame]
    exact ⟨rfl, rfl, rfl⟩

theorem C15_successful_login_resets_witness :
    (login sampleConfig ⟨5000, true⟩
        ⟨[{ sampleStudent with loginAttempts := 7, lockUntil := some 2000 }], [], []⟩ sampleReq
        ⟨some "20240001", some "secret1"⟩).2.users =
      [{ sampleStudent with lastLogin := some 5000, updatedAt := 5000 }] ∧
    (login sampleConfig ⟨5000, true⟩
        ⟨[{ sampleStudent with loginAttempts := 7, lockUntil := some 2000 }], [], []⟩ sampleReq
        ⟨some "20240001", some "secret1"⟩).1.status = 200 :=
  ⟨by decide,
   (C15_successful_login_resets sampleConfig ⟨5000, true⟩
    ⟨[{ sampleStudent with loginAttempts := 7, lockUntil := some 2000 }], [], []⟩ sampleReq
    "20240001" "secret1" { sampleStudent with loginAttempts := 7, lockUntil := some 2000 }
    (by decide) (by decide) (by decide) (by decide) (by decide)).1⟩

/-! ## Lemmas on stored text -/

/-- What `trim()` leaves is a contiguous part of the string. -/
theorem jsTrim_infix (cs : List Char) : ∃ a b : List Char, cs = a ++ jsTrim cs ++ b := by
  obtain ⟨a, ha⟩ := List.dropWhile_suffix (l := cs) isJsWhiteSpace
  obtain ⟨t, ht⟩ := List.dropWhile_suffix (l := (cs.dropWhile isJsWhiteSpace).reverse)
    isJsWhiteSpace
  refine ⟨a, t.reverse, ?_⟩
  have h2 : cs.dropWhile isJsWhiteSpace = jsTrim cs ++ t.reverse := by
    have := congrArg List.reverse ht
    rw [List.reverse_append, List.reverse_reverse] at this
    exact this.symm
  rw [List.append_assoc, ← h2, ha]

theorem jsTrim_trimmed (cs : List Char) : Trimmed (jsTrim cs) := by
  constructor
  · intro c hc
    unfold jsTrim at hc
    rw [List.head?_reverse] at hc
    obtain ⟨t, ht⟩ := List.dropWhile_suffix (l := (cs.dropWhile isJsWhiteSpace).reverse)
      isJsWhiteSpace
    have hne : ((cs.dropWhile isJsWhiteSpace).reverse.dropWhile isJsWhiteSpace) ≠ [] := by
      intro h; rw [h] at hc; simp at hc
    have hlast : (cs.dropWhile isJsWhiteSpace).reverse.getLast? = some c := by
      rw [← ht, List.getLast?_append_of_ne_nil _ hne]; exact hc
    rw [List.getLast?_reverse] at hlast
    have := List.head?_dropWhile_not isJsWhiteSpace cs
    rw [hlast] at this
    exact this
  · intro c hc
    unfold jsTrim at hc
    rw [List.getLast?_reverse] at hc
    have := List.head?_dropWhile_not isJsWhiteSpace
      ((cs.dropWhile isJsWhiteSpace).reverse)
    rw [hc] at this
    exact this

/-- The tag scan emits only characters of its input. -/
theorem stripTagsFrom_subset : ∀ (cs : List Char) (b : Bool) (x : Char),
    x ∈ stripTagsFrom b cs → x ∈ cs := by
  intro cs
  induction cs with
  | nil => intro b x h; cases b <;> simp [stripTagsFrom] at h
  | cons c cs ih =>
    intro b x h
    cases b with
    | true =>
      simp only [stripTagsFrom] at h
      split at h
      · exact List.mem_cons_of_mem _ (ih _ _ h)
      · exact List.mem_cons_of_mem _ (ih _ _ h)
    | false =>
      simp only [stripTagsFrom] at h
      split at h
      · exact List.mem_cons_of_mem _ (ih _ _ h)
      · rcases List.mem_cons.mp h with h | h
        · rw [h]; exact List.mem_cons_self _ _
        · exact List.mem_cons_of_mem _ (ih _ _ h)

/-- After the tag scan no `<` is followed by a `>`. -/
theorem stripTagsFrom_tagFree : ∀ (cs : List Char) (b : Bool), TagFree (stripTagsFrom b cs) := by
  intro cs
  induction cs with
  | nil =>
    intro b pre post h
    cases b <;> simp [stripTagsFrom] at h
  | cons c cs ih =>
    intro b
    cases b with
    | true =>
      simp only [stripTagsFrom]
      split
      · exact ih false
      · exact ih true
    | false =>
      simp only [stripTagsFrom]
      split
      · exact ih true
      · rename_i hcond
        intro pre post h
        cases pre with
        | nil =>
          simp only [List.nil_append, List.cons.injEq] at h
          obtain ⟨hc, hpost⟩ := h
          intro hmem
          apply hcond
          refine ⟨hc, ?_⟩
          rw [← hpost] at hmem
          exact stripTagsFrom_subset cs false _ hmem
        | cons p pre1 =>
          simp only [List.cons_append, List.cons.injEq] at h
          exact ih false pre1 post h.2

/-- A contiguous part of a tag-free string is tag-free. -/
theorem tagFree_infix (a mid b : List Char) (h : TagFree (a ++ mid ++ b)) : TagFree mid := by
  intro pre post hmid hmem
  apply h (a ++ pre) (post ++ b)
  · rw [hmid]; simp
  · exact List.mem_append_left _ hmem

/-- Every stored title and content is trimmed and tag-free. -/
theorem storedText_clean (input : String) :
    Trimmed (storedText input).data ∧ TagFree (storedText input).data := by
  refine ⟨jsTrim_trimmed _, ?_⟩
  show TagFree (jsTrim (stripTagsFrom false (jsTrim input.data)))
  obtain ⟨a, b, hab⟩ := jsTrim_infix (stripTagsFrom false (jsTrim input.data))
  apply tagFree_infix a _ b
  rw [← hab]
  exact stripTagsFrom_tagFree _ _

theorem length_le_jsLength (s : String) : s.length ≤ jsLength s := by
  unfold jsLength
  show s.data.length ≤ _
  induction s.data with
  | nil => simp
  | cons c cs ih =>
    simp only [List.length_cons, List.map_cons, List.sum_cons]
    split <;> omega

/-! ## Lemmas on ticket creation and the own listing -/

/-- Creation answers 201 exactly when the three required fields are truthy
and the built document passes the validators; it then appends the document. -/
theorem createFeedback_created (env : Env) (db : Db) (reqUser : User) (req : ReqInfo)
    (newId : ObjectId) (body : CreateBody)
    (h : (createFeedback env db reqUser req newId body).1.status = 201) :
    (truthy body.category = true ∧ truthy body.title = true ∧ truthy body.content = true) ∧
    validFeedback (newFeedback env.now newId reqUser body) = true ∧
    createFeedback env db reqUser req newId body =
      (⟨201, true, some "反馈提交成功",
          Payload.created newId (storedText (body.title.getD "")) (some "pending")⟩,
        logAction env { db with feedbacks := db.feedbacks ++
            [newFeedback env.now newId reqUser body] }
          reqUser._id "create" "feedback" newId [("category", body.category)] req) := by
  by_cases hreq : (!truthy body.category || !truthy body.title || !truthy body.content) = true
  · simp [createFeedback, hreq, fail] at h
  · by_cases hval : validFeedback (newFeedback env.now newId reqUser body) = true
    · have hreq2 : truthy body.category = true ∧ truthy body.title = true ∧
          truthy body.content = true := by
        simpa [and_assoc] using hreq
      refine ⟨hreq2, hval, ?_⟩
      simp only [createFeedback, hreq2.1, hreq2.2.1, hreq2.2.2, hval, Bool.not_true,
        Bool.or_self, Bool.false_eq_true, if_false]
      rfl
    · simp [createFeedback, hreq, hval, fail] at h

/-- A refused creation writes nothing. -/
theorem createFeedback_refused (env : Env) (db : Db) (reqUser : User) (req : ReqInfo)
    (newId : ObjectId) (body : CreateBody)
    (h : (createFeedback env db reqUser req newId body).1.status ≠ 201) :
    ((createFeedback env db reqUser req newId body).1 = fail 400 "请填写所有必填字段" ∨
      (createFeedback env db reqUser req newId body).1 = fail 500 "提交失败，请重试") ∧
    (createFeedback env db reqUser req newId body).2 = db := by
  by_cases hreq : (!truthy body.category || !truthy body.title || !truthy body.content) = true
  · simp [createFeedback, hreq]
  · by_cases hval : validFeedback (newFeedback env.now newId reqUser body) = true
    · simp [createFeedback, hreq, hval] at h
    · simp [createFeedback, hreq, hval]

theorem mem_enum_ne_empty {l : List String} {c : String} (hl : "" ∉ l) (h : c ∈ l) : c ≠ "" := by
  intro he; rw [he] at h; exact hl h

theorem storedText_ne_empty {t : String} (h : storedText t ≠ "") : t ≠ "" := by
  intro he; rw [he] at h; exact h (by decide)

/-- A valid creation input is accepted. -/
theorem createFeedback_valid (env : Env) (db : Db) (reqUser : User) (req : ReqInfo)
    (newId : ObjectId) (body : CreateBody) (hvalid : ValidCreateInput body) :
    (createFeedback env db reqUser req newId body).1.status = 201 := by
  obtain ⟨⟨c, hc, hcat⟩, ⟨t, ht, htne, htlen⟩, ⟨k, hk, hkne, hklen⟩, hprio⟩ := hvalid
  have hc1 : truthy body.category = true := by
    rw [hcat]; simp [truthy, mem_enum_ne_empty (by decide) hc]
  have ht1 : truthy body.title = true := by
    rw [ht]; simp [truthy, storedText_ne_empty htne]
  have hk1 : truthy body.content = true := by
    rw [hk]; simp [truthy, storedText_ne_empty hkne]
  have hp : (if truthy body.priority = true then body.priority.getD "" else "normal") ∈
      priorityEnum := by
    by_cases hpt : truthy body.priority = true
    · obtain ⟨p, hp, hpe⟩ := hprio hpt
      rw [if_pos hpt, hpe]; exact hp
    · rw [if_neg hpt]; decide
  have hval : validFeedback (newFeedback env.now newId reqUser body) = true := by
    simp only [validFeedback, newFeedback, hcat, ht, hk, Option.getD_some, Bool.and_eq_true,
      decide_eq_true_eq, bne_iff_ne, ne_eq]
    exact ⟨⟨⟨⟨hc, htne, htlen⟩, hkne, hklen⟩, hp⟩, by decide⟩
  simp [createFeedback, hc1, ht1, hk1, hval]

/-- A member of a list lies on one of its pages of size `L`. -/
theorem exists_page {α : Type} (l : List α) (x : α) (L : Nat) (hL : 1 ≤ L) (h : x ∈ l) :
    ∃ p, 1 ≤ p ∧ x ∈ (l.drop ((p - 1) * L)).take L := by
  obtain ⟨k, hk⟩ := List.mem_iff_getElem?.mp h
  refine ⟨k / L + 1, Nat.le_add_left _ _, ?_⟩
  apply List.mem_iff_getElem?.mpr
  refine ⟨k % L, ?_⟩
  have hlt : k % L < L := Nat.mod_lt _ (by omega)
  rw [List.getElem?_take_of_lt hlt, List.getElem?_drop]
  have : (k / L + 1 - 1) * L + k % L = k := by
    rw [Nat.add_sub_cancel, Nat.mul_comm]; exact Nat.div_add_mod k L
  rw [this]; exact hk

/-- The tickets of the own listing are stored tickets that match the filter. -/
theorem myFeedbacks_mem (db : Db) (reqUser : User) (q : MyListQuery) (fs : List Feedback)
    (pg : Pagination) (h : (myFeedbacks db reqUser q).1.payload = Payload.myFeedbacks fs pg) :
    ∀ g ∈ fs, g ∈ db.feedbacks ∧ matchesMine reqUser._id q g = true := by
  unfold myFeedbacks at h
  by_cases hneg : q.page.getD 1 = 0 ∧ q.limit.getD 20 ≠ 0
  · simp only [if_pos hneg, fail] at h
    cases h
  · simp only [if_neg hneg] at h
    injection h with hfs _
    intro g hg
    rw [← hfs] at hg
    have h1 : g ∈ List.drop ((q.page.getD 1 - 1) * q.limit.getD 20)
        ((db.feedbacks.filter (matchesMine reqUser._id q)).insertionSort createdOrder) := by
      by_cases hl : q.limit.getD 20 = 0
      · simpa [hl] using hg
      · rw [if_neg hl] at hg
        exact List.mem_of_mem_take hg
    have h2 := List.mem_of_mem_drop h1
    rw [List.mem_insertionSort] at h2
    exact List.mem_filter.mp h2

/-- A stored ticket that matches the filter is on some page of the own
listing, for every page size but 0. -/
theorem myFeedbacks_page (db : Db) (reqUser : User) (status category : Option String)
    (limit : Option Nat) (f : Feedback) (hlimit : limit ≠ some 0) (hf : f ∈ db.feedbacks)
    (hm : matchesMine reqUser._id ⟨status, category, none, limit⟩ f = true) :
    ∃ page fs pg, 1 ≤ page ∧
      (myFeedbacks db reqUser ⟨status, category, some page, limit⟩).1.payload =
        Payload.myFeedbacks fs pg ∧ f ∈ fs := by
  have hL : 1 ≤ limit.getD 20 := by
    cases limit with
    | none => simp
    | some n =>
      have : n ≠ 0 := fun h => hlimit (by rw [h])
      simp only [Option.getD_some]; omega
  have hmem : f ∈ (db.feedbacks.filter
      (matchesMine reqUser._id ⟨status, category, none, limit⟩)).insertionSort createdOrder := by
    rw [List.mem_insertionSort]
    exact List.mem_filter.mpr ⟨hf, hm⟩
  obtain ⟨p, hp, hin⟩ := exists_page _ f (limit.getD 20) hL hmem
  refine ⟨p, _, ⟨p, limit.getD 20, (db.feedbacks.filter
    (matchesMine reqUser._id ⟨status, category, none, limit⟩)).length, pageCount (db.feedbacks.filter
    (matchesMine reqUser._id ⟨status, category, none, limit⟩)).length (limit.getD 20)⟩, hp, ?_, hin⟩
  have hfilter : matchesMine reqUser._id ⟨status, category, some p, limit⟩ =
      matchesMine reqUser._id ⟨status, category, none, limit⟩ := by
    funext g; rfl
  have hnot : ¬ (p = 0 ∧ limit.getD 20 ≠ 0) := by omega
  simp only [myFeedbacks, Option.getD_some, if_neg hnot, hfilter]
  rw [if_neg (by omega)]

/-! ## Ticket creation -/

/-- C16: a valid creation input is answered 201, and the owner's listing then
returns, on some page for every page size but 0, the created ticket: it has
the submitted category and `isAnonymous` (false when absent), the stored form
of the title and content (`sanitizeInput`, then the schema's trim), status
`pending`, `resolvedAt` unset, no responses, and the submitted priority or
`normal` when none is submitted; no other field of the body plays a part.
When no stored ticket had the generated id, every listed ticket with that id
is this ticket. -/
theorem C16_create_round_trip (env : Env) (db : Db) (reqUser : User) (req : ReqInfo)
    (newId : ObjectId) (body : CreateBody) (limit : Option Nat)
    (hvalid : ValidCreateInput body) (hlimit : limit ≠ some 0) :
    (createFeedback env db reqUser req newId body).1 =
      ⟨201, true, some "反馈提交成功",
        Payload.created newId (storedText (body.title.getD "")) (some "pending")⟩ ∧
    (∃ page fs pg, 1 ≤ page ∧
      (myFeedbacks (createFeedback env db reqUser req newId body).2 reqUser
        ⟨none, none, some page, limit⟩).1.payload = Payload.myFeedbacks fs pg ∧
      ∃ f ∈ fs, f._id = newId ∧ f.user = reqUser._id ∧ body.category = some f.category ∧
        f.isAnonymous = body.isAnonymous.getD false ∧
        f.title = storedText (body.title.getD "") ∧
        f.content = storedText (body.content.getD "") ∧
        f.status = some "pending" ∧ f.resolvedAt = none ∧ f.responses = [] ∧
        (truthy body.priority = true → body.priority = some f.priority) ∧
        (truthy body.priority = false → f.priority = "normal")) ∧
    ((∀ g ∈ db.feedbacks, g._id ≠ newId) →
      ∀ q fs pg, (myFeedbacks (createFeedback env db reqUser req newId body).2 reqUser
          q).1.payload = Payload.myFeedbacks fs pg →
        ∀ g ∈ fs, g._id = newId → g = newFeedback env.now newId reqUser body) := by
  have h201 := createFeedback_valid env db reqUser req newId body hvalid
  obtain ⟨_, _, hstep⟩ := createFeedback_created env db reqUser req newId body h201
  have hfb : (createFeedback env db reqUser req newId body).2.feedbacks =
      db.feedbacks ++ [newFeedback env.now newId reqUser body] := by
    rw [hstep]; exact logAction_feedbacks _ _ _ _ _ _ _ _
  refine ⟨by rw [hstep], ?_, ?_⟩
  · have hmem : newFeedback env.now newId reqUser body ∈
        (createFeedback env db reqUser req newId body).2.feedbacks := by
      rw [hfb]; simp
    have hm : matchesMine reqUser._id ⟨none, none, none, limit⟩
        (newFeedback env.now newId reqUser body) = true := by
      simp [matchesMine, truthy, newFeedback]
    obtain ⟨page, fs, pg, hp, hpay, hin⟩ :=
      myFeedbacks_page _ reqUser none none limit _ hlimit hmem hm
    refine ⟨page, fs, pg, hp, hpay, _, hin, rfl, rfl, ?_, rfl, rfl, rfl, rfl, rfl, rfl, ?_, ?_⟩
    · obtain ⟨⟨c, _, hcat⟩, _⟩ := hvalid
      simp [newFeedback, hcat]
    · intro ht
      cases hpr : body.priority with
      | none => rw [hpr] at ht; simp [truthy] at ht
      | some p => simp [newFeedback, truthy, hpr] at ht ⊢; simp [ht]
    · intro ht
      simp [newFeedback, ht]
  · intro hfresh q fs pg hpay g hg hid
    have hgm := (myFeedbacks_mem _ reqUser q fs pg hpay g hg).1
    rw [hfb] at hgm
    rcases List.mem_append.mp hgm with h | h
    · exact absurd hid (hfresh g h)
    · simpa using h

theorem C16_create_round_trip_witness :
    (createFeedback ⟨100, true⟩ sampleDb sampleStudent sampleReq 12 sampleCreate).1 =
      ⟨201, true, some "反馈提交成功",
        Payload.created 12 (storedText (sampleCreate.title.getD "")) (some "pending")⟩ :=
  (C16_create_round_trip ⟨100, true⟩ sampleDb sampleStudent sampleReq 12 sampleCreate none
    ⟨⟨"academic", by decide, rfl⟩, ⟨_, rfl, by decide, by decide⟩,
      ⟨_, rfl, by decide, by decide⟩, fun _ => ⟨"low", by decide, rfl⟩⟩ (by decide)).1

/-- C17, the claim fails: `sanitizeInput` removes the two tags and keeps the
text between them, so the example title does not become `Hello`; and a ticket
created through the route with that title is not stored with the title
`Hello`. -/
theorem C17_script_title_not_hello :
    sanitizeInput "<script>x</script>Hello" ≠ "Hello" ∧
    (postFeedback ⟨100, true⟩ sampleDb sampleStudent sampleReq 12 sampleCreate).1.status = 201 ∧
    (postFeedback ⟨100, true⟩ sampleDb sampleStudent sampleReq 12 sampleCreate).1.payload ≠
      Payload.created 12 "Hello" (some "pending") ∧
    ∀ f ∈ (postFeedback ⟨100, true⟩ sampleDb sampleStudent sampleReq 12
        sampleCreate).2.feedbacks, f.title ≠ "Hello" := by
  decide

/-- C17, amended: `sanitizeInput` of the example title is `xHello`: the two
tags are stripped and the text between them stays.  A ticket created through
the route with that title reaches the handler with every `<` rewritten to
`&lt;` by the `xss()` middleware, so `sanitizeInput` finds no tag, and the
ticket is stored and returned by the owner's listing with the title
`&lt;script>x&lt;/script>Hello`. -/
theorem C17_script_title_stored_escaped :
    sanitizeInput "<script>x</script>Hello" = "xHello" ∧
    xssClean "<script>x</script>Hello" = "&lt;script>x&lt;/script>Hello" ∧
    sanitizeInput (xssClean "<script>x</script>Hello") = "&lt;script>x&lt;/script>Hello" ∧
    (postFeedback ⟨100, true⟩ sampleDb sampleStudent sampleReq 12 sampleCreate).1 =
      ⟨201, true, some "反馈提交成功",
        Payload.created 12 "&lt;script>x&lt;/script>Hello" (some "pending")⟩ ∧
    (myFeedbacks (postFeedback ⟨100, true⟩ sampleDb sampleStudent sampleReq 12
        sampleCreate).2 sampleStudent ⟨none, none, none, none⟩).1.payload =
      Payload.myFeedbacks
        [⟨12, 1, "academic", "&lt;script>x&lt;/script>Hello", "C", "low", some "pending", true,
            [], none, 100, 100⟩,
          sampleSigned, sampleAnonymous] ⟨1, 20, 3, some 1⟩ := by
  decide

/-- C18: the title and content of every created ticket are stored trimmed
and tag-stripped: no whitespace at either end, and no `<` that is followed
anywhere later by a `>`. -/
theorem C18_stored_text_trimmed_tag_free (env : Env) (db : Db) (reqUser : User)
    (req : ReqInfo) (newId : ObjectId) (body : CreateBody)
    (hok : (createFeedback env db reqUser req newId body).1.status = 201) :
    ∃ f, (createFeedback env db reqUser req newId body).2.feedbacks = db.feedbacks ++ [f] ∧
      f.title = storedText (body.title.getD "") ∧
      f.content = storedText (body.content.getD "") ∧
      Trimmed f.title.data ∧ TagFree f.title.data ∧
      Trimmed f.content.data ∧ TagFree f.content.data := by
  obtain ⟨_, _, hstep⟩ := createFeedback_created env db reqUser req newId body hok
  refine ⟨newFeedback env.now newId reqUser body, ?_, rfl, rfl, ?_, ?_, ?_, ?_⟩
  · rw [hstep]; exact logAction_feedbacks _ _ _ _ _ _ _ _
  · exact (storedText_clean _).1
  · exact (storedText_clean _).2
  · exact (storedText_clean _).1
  · exact (storedText_clean _).2

theorem C18_stored_text_trimmed_tag_free_witness :
    ∃ f, (createFeedback ⟨100, true⟩ sampleDb sampleStudent sampleReq 12
        sampleCreate).2.feedbacks = sampleDb.feedbacks ++ [f] ∧
      f.title = storedText (sampleCreate.title.getD "") ∧
      f.content = storedText (sampleCreate.content.getD "") ∧
      Trimmed f.title.data ∧ TagFree f.title.data ∧
      Trimmed f.content.data ∧ TagFree f.content.data :=
  C18_stored_text_trimmed_tag_free ⟨100, true⟩ sampleDb sampleStudent sampleReq 12
    sampleCreate (by decide)

theorem truthy_getD {v : Option String} (h : truthy v = true) : v = some (v.getD "") := by
  cases v with
  | none => simp [truthy] at h
  | some s => rfl

/-- C19: creation is answered with an error (400 or 500, `success: false`, a
message) and stores nothing when the category is not of the enumeration, or a
non-empty priority is not of the enumeration, or the title or content is blank
once tags are stripped and it is trimmed, or the stored title is longer than
100 or the stored content longer than 2000 (in characters or in UTF-16 code
units). -/
theorem C19_invalid_creation_refused (env : Env) (db : Db) (reqUser : User) (req : ReqInfo)
    (newId : ObjectId) (body : CreateBody)
    (hbad : (∀ c ∈ categoryEnum, body.category ≠ some c) ∨
      (∃ p, body.priority = some p ∧ p ≠ "" ∧ p ∉ priorityEnum) ∨
      storedText (body.title.getD "") = "" ∨ storedText (body.content.getD "") = "" ∨
      (100 < (storedText (body.title.getD "")).length ∨
        100 < jsLength (storedText (body.title.getD ""))) ∨
      (2000 < (storedText (body.content.getD "")).length ∨
        2000 < jsLength (storedText (body.content.getD "")))) :
    ((createFeedback env db reqUser req newId body).1.status = 400 ∨
      (createFeedback env db reqUser req newId body).1.status = 500) ∧
    (createFeedback env db reqUser req newId body).1.success = false ∧
    (createFeedback env db reqUser req newId body).1.message ≠ none ∧
    (createFeedback env db reqUser req newId body).1.payload = Payload.empty ∧
    (createFeedback env db reqUser req newId body).2 = db := by
  have hne : (createFeedback env db reqUser req newId body).1.status ≠ 201 := by
    intro h201
    obtain ⟨⟨hc, _, _⟩, hval, _⟩ := createFeedback_created env db reqUser req newId body h201
    simp only [validFeedback, newFeedback, Bool.and_eq_true, decide_eq_true_eq, bne_iff_ne,
      ne_eq] at hval
    obtain ⟨⟨⟨⟨hcat, htne, htlen⟩, hkne, hklen⟩, hprio⟩, _⟩ := hval
    rcases hbad with h | h | h | h | h | h
    · exact h _ hcat (truthy_getD hc)
    · obtain ⟨p, hp, hpne, hpn⟩ := h
      have htp : truthy body.priority = true := by simp [hp, truthy, hpne]
      rw [if_pos htp, hp] at hprio
      exact hpn hprio
    · exact htne h
    · exact hkne h
    · have := length_le_jsLength (storedText (body.title.getD ""))
      omega
    · have := length_le_jsLength (storedText (body.content.getD ""))
      omega
  obtain ⟨hres, hdb⟩ := createFeedback_refused env db reqUser req newId body hne
  refine ⟨?_, ?_, ?_, ?_, hdb⟩
  · rcases hres with h | h <;> rw [h]
    · left; rfl
    · right; rfl
  · rcases hres with h | h <;> rw [h] <;> rfl
  · rcases hres with h | h <;> rw [h] <;> simp [fail]
  · rcases hres with h | h <;> rw [h] <;> rfl

theorem C19_invalid_creation_refused_witness :
    (createFeedback ⟨100, true⟩ sampleDb sampleStudent sampleReq 12
        ⟨some "sports", some "T", some "C", none, none, []⟩).1.status = 500 ∧
    (createFeedback ⟨100, true⟩ sampleDb sampleStudent sampleReq 12
        ⟨some "sports", some "T", some "C", none, none, []⟩).2 = sampleDb :=
  ⟨by decide,
   (C19_invalid_creation_refused ⟨100, true⟩ sampleDb sampleStudent sampleReq 12
    ⟨some "sports", some "T", some "C", none, none, []⟩ (Or.inl (by decide))).2.2.2.2⟩

/-! ## Required fields -/

/-- C20: the status update and the password change have no check of their
required fields.  A status update without `status` is answered 200 and leaves
the ticket with its status unset; a password change without `currentPassword`,
or with the right current password and without `newPassword`, is answered 500.
Login and ticket creation, for comparison, answer 400 to a missing field and
write nothing. -/
theorem C20_missing_fields_not_rejected :
    (updateStatus ⟨100, true⟩ sampleDb sampleAdmin sampleReq (some 10) ⟨none, none⟩).1.status =
      200 ∧
    (findById (updateStatus ⟨100, true⟩ sampleDb sampleAdmin sampleReq (some 10)
        ⟨none, none⟩).2.feedbacks 10).map (fun f => f.status) = some none ∧
    (changePassword sampleConfig (fun s => s) ⟨100, true⟩ sampleDb sampleStudent sampleReq
        ⟨none, some "newsecret"⟩).1 = fail 500 "密码修改失败" ∧
    (changePassword sampleConfig (fun s => s) ⟨100, true⟩ sampleDb sampleStudent sampleReq
        ⟨some "secret1", none⟩).1 = fail 500 "密码修改失败" ∧
    login sampleConfig ⟨100, true⟩ sampleDb sampleReq ⟨some "20240001", none⟩ =
      (fail 400 "请输入学号和密码", sampleDb) ∧
    createFeedback ⟨100, true⟩ sampleDb sampleStudent sampleReq 12
        ⟨some "academic", none, some "C", none, none, []⟩ =
      (fail 400 "请填写所有必填字段", sampleDb) := by
  decide

/-! ## Pagination of the admin listing -/

/-- The page size fits into the page count at least as often as there are
tickets, and every page up to the last starts before the tickets end. -/
theorem ceil_pages (n L : Nat) (hL : 1 ≤ L) :
    n ≤ (n + L - 1) / L * L ∧ ∀ p, p < (n + L - 1) / L → p * L < n := by
  have h1 := Nat.div_add_mod (n + L - 1) L
  have h2 := Nat.mod_lt (n + L - 1) (show L > 0 by omega)
  have hc : (n + L - 1) / L * L = L * ((n + L - 1) / L) := Nat.mul_comm _ _
  constructor
  · rw [hc]; omega
  · intro p hp
    have h3 : (p + 1) * L ≤ (n + L - 1) / L * L := Nat.mul_le_mul_right L hp
    have h4 : (p + 1) * L = p * L + L := Nat.succ_mul p L
    rw [hc] at h3
    omega

/-- The response of the admin listing to an administrator asking for page
`p` of size `L`. -/
theorem adminPage_eq (db : Db) (reqUser : User) (q : ListQuery) (p L : Nat)
    (hadmin : reqUser.role = "admin" ∨ reqUser.role = "superadmin") (hp : 1 ≤ p) (hL : 1 ≤ L) :
    adminPage db reqUser q p L =
      ⟨200, true, none, Payload.feedbacks
        ((((db.feedbacks.filter (matchesQuery q)).insertionSort listingOrder).drop
          ((p - 1) * L)).take L |>.map (listedFeedback db.users))
        ⟨p, L, (db.feedbacks.filter (matchesQuery q)).length,
          some (((db.feedbacks.filter (matchesQuery q)).length + L - 1) / L)⟩⟩ := by
  have hfilter : matchesQuery { q with page := some p, limit := some L } = matchesQuery q := by
    funext g; rfl
  have hnot : ¬ (p = 0 ∧ L ≠ 0) := by omega
  have hL0 : ¬ L = 0 := by omega
  simp only [adminPage, adminFeedbacks, adminOnly_admin reqUser hadmin, adminFeedbacksHandler,
    Option.getD_some, if_neg hnot, if_neg hL0, hfilter, pageCount]

theorem listedOf_adminPage (db : Db) (reqUser : User) (q : ListQuery) (p L : Nat)
    (hadmin : reqUser.role = "admin" ∨ reqUser.role = "superadmin") (hp : 1 ≤ p) (hL : 1 ≤ L) :
    listedOf (adminPage db reqUser q p L) =
      ((((db.feedbacks.filter (matchesQuery q)).insertionSort listingOrder).drop
        ((p - 1) * L)).take L).map (listedFeedback db.users) := by
  rw [adminPage_eq db reqUser q p L hadmin hp hL]; rfl

/-- The first `c` pages, concatenated, are the first `c * L` tickets of the
sorted matches. -/
theorem adminPages_eq_take (db : Db) (reqUser : User) (q : ListQuery) (L : Nat)
    (hadmin : reqUser.role = "admin" ∨ reqUser.role = "superadmin") (hL : 1 ≤ L) :
    ∀ c, adminPages db reqUser q L c =
      (((db.feedbacks.filter (matchesQuery q)).insertionSort listingOrder).take (c * L)).map
        (listedFeedback db.users) := by
  intro c
  induction c with
  | zero => simp [adminPages]
  | succ c ih =>
    have hstep : adminPages db reqUser q L (c + 1) =
        adminPages db reqUser q L c ++ listedOf (adminPage db reqUser q (c + 1) L) := by
      simp [adminPages, List.range_succ, List.flatMap_append]
    rw [hstep, ih, listedOf_adminPage db reqUser q (c + 1) L hadmin (by omega) hL,
      Nat.add_sub_cancel, Nat.succ_mul, List.take_add, List.map_append]

theorem listedFeedback_id (users : List User) (f : Feedback) :
    (listedFeedback users f)._id = f._id := rfl

/-- C21: for an administrator, every filter and every page size L of at least
1, with n the number of stored tickets that match the filter: pages 1 to
ceil(n/L) of the admin listing, concatenated in page order, are exactly the
matching tickets in the listing's sort order; every page reports total n and
ceil(n/L) pages; page p holds min(L, n - (p-1)L) tickets, so every page before
the last holds exactly L; no id is duplicated when the stored ids are distinct
and no matching ticket is missing.  With 45 matching tickets and L = 20 there
are 3 pages, of 20, 20 and 5 tickets. -/
theorem C21_admin_pagination (db : Db) (reqUser : User) (q : ListQuery) (L : Nat)
    (hadmin : reqUser.role = "admin" ∨ reqUser.role = "superadmin") (hL : 1 ≤ L) :
    adminPages db reqUser q L (((db.feedbacks.filter (matchesQuery q)).length + L - 1) / L) =
      ((db.feedbacks.filter (matchesQuery q)).insertionSort listingOrder).map
        (listedFeedback db.users) ∧
    (∀ p, 1 ≤ p → paginationOf (adminPage db reqUser q p L) =
      some ⟨p, L, (db.feedbacks.filter (matchesQuery q)).length,
        some (((db.feedbacks.filter (matchesQuery q)).length + L - 1) / L)⟩) ∧
    (∀ p, 1 ≤ p → (listedOf (adminPage db reqUser q p L)).length =
      min L ((db.feedbacks.filter (matchesQuery q)).length - (p - 1) * L)) ∧
    (∀ p, 1 ≤ p → p < ((db.feedbacks.filter (matchesQuery q)).length + L - 1) / L →
      (listedOf (adminPage db reqUser q p L)).length = L) ∧
    ((db.feedbacks.map (fun f => f._id)).Nodup →
      ((adminPages db reqUser q L
        (((db.feedbacks.filter (matchesQuery q)).length + L - 1) / L)).map
          (fun f => f._id)).Nodup) ∧
    (∀ f ∈ db.feedbacks, matchesQuery q f = true →
      f._id ∈ (adminPages db reqUser q L
        (((db.feedbacks.filter (matchesQuery q)).length + L - 1) / L)).map (fun f => f._id)) ∧
    ((db.feedbacks.filter (matchesQuery q)).length = 45 → L = 20 →
      ((db.feedbacks.filter (matchesQuery q)).length + L - 1) / L = 3 ∧
      (listedOf (adminPage db reqUser q 1 L)).length = 20 ∧
      (listedOf (adminPage db reqUser q 2 L)).length = 20 ∧
      (listedOf (adminPage db reqUser q 3 L)).length = 5) := by
  have hlen : ((db.feedbacks.filter (matchesQuery q)).insertionSort listingOrder).length =
      (db.feedbacks.filter (matchesQuery q)).length := List.length_insertionSort _ _
  obtain ⟨hceil1, hceil2⟩ := ceil_pages (db.feedbacks.filter (matchesQuery q)).length L hL
  have hconcat : adminPages db reqUser q L
      (((db.feedbacks.filter (matchesQuery q)).length + L - 1) / L) =
      ((db.feedbacks.filter (matchesQuery q)).insertionSort listingOrder).map
        (listedFeedback db.users) := by
    rw [adminPages_eq_take db reqUser q L hadmin hL, List.take_of_length_le]
    rw [hlen]; exact hceil1
  have hpagelen : ∀ p, 1 ≤ p → (listedOf (adminPage db reqUser q p L)).length =
      min L ((db.feedbacks.filter (matchesQuery q)).length - (p - 1) * L) := by
    intro p hp
    rw [listedOf_adminPage db reqUser q p L hadmin hp hL, List.length_map, List.length_take,
      List.length_drop, hlen]
  have hids : (((db.feedbacks.filter (matchesQuery q)).insertionSort listingOrder).map
      (listedFeedback db.users)).map (fun f => f._id) =
      ((db.feedbacks.filter (matchesQuery q)).insertionSort listingOrder).map
        (fun f => f._id) := by
    rw [List.map_map]; rfl
  refine ⟨hconcat, ?_, hpagelen, ?_, ?_, ?_, ?_⟩
  · intro p hp
    rw [adminPage_eq db reqUser q p L hadmin hp hL]; rfl
  · intro p hp hlt
    rw [hpagelen p hp]
    have h1 := hceil2 p hlt
    have h2 : (p - 1 + 1) * L = (p - 1) * L + L := Nat.succ_mul (p - 1) L
    have h3 : p - 1 + 1 = p := by omega
    rw [h3] at h2
    omega
  · intro hnodup
    rw [hconcat, hids]
    have hperm := (List.perm_insertionSort listingOrder
      (db.feedbacks.filter (matchesQuery q))).map (fun f => f._id)
    rw [hperm.nodup_iff]
    exact List.Nodup.sublist ((List.filter_sublist db.feedbacks).map _) hnodup
  · intro f hf hm
    rw [hconcat, hids]
    apply List.mem_map.mpr
    refine ⟨f, ?_, rfl⟩
    rw [List.mem_insertionSort]
    exact List.mem_filter.mpr ⟨hf, hm⟩
  · intro h45 h20
    subst h20
    rw [hpagelen 1 (by omega), hpagelen 2 (by omega), hpagelen 3 (by omega), h45]
    decide

theorem C21_admin_pagination_witness :
    adminPages sampleDb sampleAdmin ⟨none, none, none, none, none⟩ 1
        (((sampleDb.feedbacks.filter
          (matchesQuery ⟨none, none, none, none, none⟩)).length + 1 - 1) / 1) =
      ((sampleDb.feedbacks.filter (matchesQuery ⟨none, none, none, none, none⟩)).insertionSort
        listingOrder).map (listedFeedback sampleDb.users) :=
  (C21_admin_pagination sampleDb sampleAdmin ⟨none, none, none, none, none⟩ 1 (by decide)
    (by decide)).1

/-! ## The order of the listings -/

/-- C22: the admin listing compares `priority` as a string, so `normal` stands
before `high` (and `low` before `high`): on a store with a ticket of priority
`high` and an older ticket of priority `normal` the listing returns the
`normal` ticket first. -/
theorem C22_priority_sorted_as_string :
    (listedOf (adminPage sampleDb3 sampleAdmin ⟨none, none, none, none, none⟩ 1 20)).map
        (fun f => (f._id, f.priority, f.createdAt)) =
      [(20, "normal", 10), (21, "high", 11)] ∧
    ([sampleHigh, sampleNormal,
        { sampleNormal with _id := 22, priority := "urgent" },
        { sampleNormal with _id := 23, priority := "low" }].insertionSort listingOrder).map
        (fun f => f.priority) = ["urgent", "normal", "low", "high"] := by
  decide

/-- C23: every ticket the own listing returns is a stored ticket owned by the
caller that matches each filter given; the returned tickets are in
descending order of creation time; and every stored ticket of the caller that
matches the filters is returned on some page. -/
theorem C23_own_listing (db : Db) (reqUser : User) (q : MyListQuery) (fs : List Feedback)
    (pg : Pagination)
    (h : (myFeedbacks db reqUser q).1.payload = Payload.myFeedbacks fs pg) :
    (∀ g ∈ fs, g ∈ db.feedbacks ∧ g.user = reqUser._id ∧
      (truthy q.status = true → g.status = q.status) ∧
      (truthy q.category = true → q.category = some g.category)) ∧
    fs.Pairwise (fun a b => b.createdAt ≤ a.createdAt) ∧
    (∀ f ∈ db.feedbacks, f.user = reqUser._id →
      (truthy q.status = true → f.status = q.status) →
      (truthy q.category = true → q.category = some f.category) →
      ∃ page fs1 pg1, 1 ≤ page ∧
        (myFeedbacks db reqUser { q with page := some page }).1.payload =
          Payload.myFeedbacks fs1 pg1 ∧ f ∈ fs1) := by
  refine ⟨?_, ?_, ?_⟩
  · intro g hg
    obtain ⟨hmem, hm⟩ := myFeedbacks_mem db reqUser q fs pg h g hg
    simp only [matchesMine, Bool.and_eq_true, Bool.or_eq_true, Bool.not_eq_true',
      beq_iff_eq] at hm
    obtain ⟨⟨hu, hs⟩, hc⟩ := hm
    refine ⟨hmem, hu, ?_, ?_⟩
    · intro ht
      rcases hs with hs | hs
      · rw [ht] at hs; cases hs
      · exact hs
    · intro ht
      rcases hc with hc | hc
      · rw [ht] at hc; cases hc
      · exact hc.symm
  · unfold myFeedbacks at h
    by_cases hneg : q.page.getD 1 = 0 ∧ q.limit.getD 20 ≠ 0
    · simp only [if_pos hneg, fail] at h
      cases h
    · simp only [if_neg hneg] at h
      injection h with hfs _
      haveI : IsTotal Feedback createdOrder := ⟨fun a b => Nat.le_total _ _⟩
      haveI : IsTrans Feedback createdOrder := ⟨fun a b c hab hbc => Nat.le_trans hbc hab⟩
      have hsorted : ((db.feedbacks.filter (matchesMine reqUser._id q)).insertionSort
          createdOrder).Pairwise createdOrder := List.sorted_insertionSort createdOrder _
      have hdrop := List.Pairwise.sublist
        (List.drop_sublist ((q.page.getD 1 - 1) * q.limit.getD 20) _) hsorted
      rw [← hfs]
      by_cases hl : q.limit.getD 20 = 0
      · rw [if_pos hl]; exact hdrop
      · rw [if_neg hl]
        exact List.Pairwise.sublist (List.take_sublist _ _) hdrop
  · intro f hf hu hs hc
    have hm : matchesMine reqUser._id ⟨q.status, q.category, none, q.limit⟩ f = true := by
      simp only [matchesMine, Bool.and_eq_true, Bool.or_eq_true, Bool.not_eq_true',
        beq_iff_eq]
      refine ⟨⟨hu, ?_⟩, ?_⟩
      · by_cases ht : truthy q.status = true
        · right; exact hs ht
        · left; simpa using ht
      · by_cases ht : truthy q.category = true
        · right; exact (hc ht).symm
        · left; simpa using ht
    by_cases hl0 : q.limit = some 0
    · refine ⟨1, (db.feedbacks.filter (matchesMine reqUser._id q)).insertionSort createdOrder,
        ⟨1, 0, (db.feedbacks.filter (matchesMine reqUser._id q)).length, none⟩, le_refl 1, ?_, ?_⟩
      · have hfilter : ∀ pg lim, matchesMine reqUser._id ⟨q.status, q.category, pg, lim⟩ =
            matchesMine reqUser._id q := by
          intro pg lim; funext g; rfl
        simp [myFeedbacks, hl0, hfilter, pageCount]
      · rw [List.mem_insertionSort]
        have hfilter : matchesMine reqUser._id ⟨q.status, q.category, none, q.limit⟩ =
            matchesMine reqUser._id q := by
          funext g; rfl
        rw [← hfilter]
        exact List.mem_filter.mpr ⟨hf, hm⟩
    · exact myFeedbacks_page db reqUser q.status q.category q.limit f hl0 hf hm

theorem C23_own_listing_witness :
    (∀ g ∈ [sampleSigned, sampleAnonymous], g ∈ sampleDb.feedbacks ∧ g.user = sampleStudent._id ∧
      (truthy (none : Option String) = true → g.status = none) ∧
      (truthy (none : Option String) = true → none = some g.category)) ∧
    [sampleSigned, sampleAnonymous].Pairwise (fun a b => b.createdAt ≤ a.createdAt) :=
  ⟨(C23_own_listing sampleDb sampleStudent ⟨none, none, none, none⟩
      [sampleSigned, sampleAnonymous] ⟨1, 20, 2, some 1⟩ (by decide)).1,
   (C23_own_listing sampleDb sampleStudent ⟨none, none, none, none⟩
      [sampleSigned, sampleAnonymous] ⟨1, 20, 2, some 1⟩ (by decide)).2.1⟩

/-! ## Lemmas on registration -/

/-- The stored form of a draft: the password hashed by the pre-save hook. -/
theorem register_created (hash lower : String → String) (env : Env) (db : Db) (req : ReqInfo)
    (newId : ObjectId) (body : RegisterBody)
    (h : (register hash lower env db req newId body).1.status = 201) :
    duplicateKey db.users
        { newUser lower env.now newId body with
          password := hash (newUser lower env.now newId body).password } = false ∧
    register hash lower env db req newId body =
      (⟨201, true, some "注册成功", Payload.empty⟩,
        logAction env { db with users := db.users ++
            [{ newUser lower env.now newId body with
                password := hash (newUser lower env.now newId body).password }] }
          newId "register" "user" newId [("studentId", body.studentId)] req) := by
  by_cases hreq : (!truthy body.studentId || !truthy body.password || !truthy body.name ||
      !truthy body.email) = true
  · simp [register, hreq, fail] at h
  · cases hfind : db.users.find? (fun u =>
        some u.studentId == body.studentId || some u.email == body.email) with
    | some existing =>
      simp only [register, hreq, hfind, fail] at h
      simp at h
    | none =>
      by_cases hval : validUser (newUser lower env.now newId body) = true
      · by_cases hdup : duplicateKey db.users
            { newUser lower env.now newId body with
              password := hash (newUser lower env.now newId body).password } = true
        · simp only [register, hreq, hfind, hval, hdup, fail] at h
          simp at h
        · have hdup2 : duplicateKey db.users
              { newUser lower env.now newId body with
                password := hash (newUser lower env.now newId body).password } = false := by
            simpa using hdup
          refine ⟨hdup2, ?_⟩
          simp only [register, hreq, hfind, hval, hdup2, Bool.not_true, Bool.false_eq_true,
            if_false]
          rfl
      · simp only [register, hreq, hfind, hval, fail] at h
        simp at h

/-- A registration that is not answered 201 writes nothing. -/
theorem register_refused (hash lower : String → String) (env : Env) (db : Db) (req : ReqInfo)
    (newId : ObjectId) (body : RegisterBody)
    (h : (register hash lower env db req newId body).1.status ≠ 201) :
    (register hash lower env db req newId body).2 = db := by
  by_cases hreq : (!truthy body.studentId || !truthy body.password || !truthy body.name ||
      !truthy body.email) = true
  · simp [register, hreq]
  · cases hfind : db.users.find? (fun u =>
        some u.studentId == body.studentId || some u.email == body.email) with
    | some existing => simp only [register, hreq, hfind]; simp
    | none =>
      by_cases hval : validUser (newUser lower env.now newId body) = true
      · by_cases hdup : duplicateKey db.users
            { newUser lower env.now newId body with
              password := hash (newUser lower env.now newId body).password } = true
        · simp only [register, hreq, hfind, hval, hdup]; simp
        · exfalso
          apply h
          simp only [register, hreq, hfind, hval, hdup, Bool.not_true, Bool.false_eq_true,
            if_false]
      · simp only [register, hreq, hfind, hval]; simp

/-- A registration whose identifier or email is that of a stored account is
answered from the first stored account that has either. -/
theorem register_conflict (hash lower : String → String) (env : Env) (db : Db) (req : ReqInfo)
    (newId : ObjectId) (body : RegisterBody) (sid email : String)
    (hsid : body.studentId = some sid) (hemail : body.email = some email)
    (hreq : sid ≠ "" ∧ email ≠ "" ∧ truthy body.password = true ∧ truthy body.name = true)
    (hcoll : ∃ u ∈ db.users, u.studentId = sid ∨ u.email = email) :
    ∃ existing, existing ∈ db.users ∧ (existing.studentId = sid ∨ existing.email = email) ∧
      db.users.find? (fun u => u.studentId == sid || u.email == email) = some existing ∧
      register hash lower env db req newId body =
        (fail 400 (if existing.studentId = sid then "学号已被注册" else "邮箱已被注册"), db) := by
  obtain ⟨hs, he, hp, hn⟩ := hreq
  have hts : truthy body.studentId = true := by simp [hsid, truthy, hs]
  have hte : truthy body.email = true := by simp [hemail, truthy, he]
  cases hfind : db.users.find? (fun u => u.studentId == sid || u.email == email) with
  | none =>
    exfalso
    obtain ⟨u, hu, huc⟩ := hcoll
    have := List.find?_eq_none.mp hfind u hu
    simp at this
    rcases huc with h | h
    · exact this.1 h
    · exact this.2 h
  | some existing =>
    have hmem := List.mem_of_find?_eq_some hfind
    have hp2 := List.find?_some hfind
    simp only [Bool.or_eq_true, beq_iff_eq] at hp2
    refine ⟨existing, hmem, hp2, rfl, ?_⟩
    have hpred : (fun u : User => some u.studentId == body.studentId ||
        some u.email == body.email) = (fun u => u.studentId == sid || u.email == email) := by
      funext u; simp [hsid, hemail]
    have hreq2 : (!truthy body.studentId || !truthy body.password || !truthy body.name ||
        !truthy body.email) = false := by simp [hts, hte, hp, hn]
    simp only [register, hreq2, hpred, hfind, Bool.false_eq_true, if_false]
    simp [hsid]

/-! ## No two accounts share an identifier or an email -/

theorem stampUser_keys (now : Time) (old new : User) (h1 : new._id = old._id)
    (h2 : new.studentId = old.studentId) (h3 : new.email = old.email) :
    (stampUser now old new)._id = old._id ∧
    (stampUser now old new).studentId = old.studentId ∧
    (stampUser now old new).email = old.email := by
  unfold stampUser
  by_cases hn : new = old
  · simp [hn]
  · simp [hn, h1, h2, h3]

/-- Saving a document over a stored account keeps every account's `_id`,
identifier and email when the stored ids are distinct. -/
theorem saveUser_unique (now : Time) (users : List User) (old new : User)
    (hu : UniqueAccounts users) (hold : old ∈ users) (h1 : new._id = old._id)
    (h2 : new.studentId = old.studentId) (h3 : new.email = old.email) :
    UniqueAccounts (saveUser now users old new) := by
  obtain ⟨k1, k2, k3⟩ := stampUser_keys now old new h1 h2 h3
  have hsame : ∀ u ∈ users, u._id = old._id → u = old := fun u hmem hid =>
    List.inj_on_of_nodup_map hu.1 hmem hold hid
  have hmap : ∀ {β : Type} (f : User → β), f (stampUser now old new) = f old →
      (saveUser now users old new).map f = users.map f := by
    intro β f hf
    unfold saveUser
    rw [List.map_map]
    apply List.map_congr_left
    intro u hmem
    by_cases hid : u._id = old._id
    · have hu2 := hsame u hmem hid
      subst hu2
      simp only [Function.comp, if_true, hf]
    · simp only [Function.comp, if_neg hid]
  unfold UniqueAccounts
  rw [hmap (fun u => u._id) k1, hmap (fun u => u.studentId) k2, hmap (fun u => u.email) k3]
  exact hu

/-- What a login request does to the store. -/
theorem login_outcome (cfg : Config) (env : Env) (db : Db) (req : ReqInfo) (body : LoginBody) :
    ((login cfg env db req body).2 = db ∧ (login cfg env db req body).1.status ≠ 200) ∨
    (∃ u, findOneByStudentId db.users (body.studentId.getD "") = some u ∧
      isLocked u env.now = false ∧
      login cfg env db req body =
        (fail 401 "学号或密码错误", { db with users := (saveUser env.now db.users u
          ({ u with loginAttempts := u.loginAttempts + 1
                    lockUntil := if u.loginAttempts + 1 ≥ 5 then some (env.now + lockDuration)
                      else u.lockUntil } : User)) })) ∨
    (∃ u, findOneByStudentId db.users (body.studentId.getD "") = some u ∧
      (login cfg env db req body).1.status = 200 ∧
      (login cfg env db req body).2.users = saveUser env.now db.users u
        ({ u with loginAttempts := 0, lockUntil := none, lastLogin := some env.now } : User)) := by
  by_cases hreq : (!truthy body.studentId || !truthy body.password) = true
  · left; simp [login, hreq, fail]
  · cases hfind : findOneByStudentId db.users (body.studentId.getD "") with
    | none => left; simp [login, hreq, hfind, fail]
    | some u =>
      by_cases hl : isLocked u env.now = true
      · left; simp [login, hreq, hfind, hl, fail]
      · have hl2 : isLocked u env.now = false := by simpa using hl
        by_cases hc : comparePassword cfg u (body.password.getD "") = true
        · right; right
          refine ⟨u, rfl, ?_, ?_⟩
          · simp [login, hreq, hfind, hl2, hc]
          · simp only [login, hreq, hfind, hl2, hc, Bool.not_true, Bool.false_eq_true, if_false]
            exact logAction_users _ _ _ _ _ _ _ _
        · right; left
          refine ⟨u, rfl, hl2, ?_⟩
          simp [login, hreq, hfind, hl2, hc]

theorem findOne_mem {users : List User} {sid : String} {u : User}
    (h : findOneByStudentId users sid = some u) : u ∈ users :=
  List.mem_of_find?_eq_some h

theorem login_unique (cfg : Config) (env : Env) (db : Db) (req : ReqInfo) (body : LoginBody)
    (hu : UniqueAccounts db.users) : UniqueAccounts (login cfg env db req body).2.users := by
  rcases login_outcome cfg env db req body with h | ⟨u, hf, _, h⟩ | ⟨u, hf, _, h⟩
  · rw [h.1]; exact hu
  · rw [h]; exact saveUser_unique _ _ _ _ hu (findOne_mem hf) rfl rfl rfl
  · rw [h]; exact saveUser_unique _ _ _ _ hu (findOne_mem hf) rfl rfl rfl

/-- What a password change does to the stored accounts. -/
theorem changePassword_users (cfg : Config) (hash : String → String) (env : Env) (db : Db)
    (reqUser : User) (req : ReqInfo) (body : PasswordBody) :
    (changePassword cfg hash env db reqUser req body).2.users = db.users ∨
    ∃ u new, u ∈ db.users ∧ new._id = u._id ∧ new.studentId = u.studentId ∧
      new.email = u.email ∧ new.loginAttempts = u.loginAttempts ∧
      new.lockUntil = u.lockUntil ∧
      (changePassword cfg hash env db reqUser req body).2.users =
        saveUser env.now db.users u new := by
  cases hfind : findUserById db.users reqUser._id with
  | none => left; simp [changePassword, hfind]
  | some u =>
    cases hcur : body.currentPassword with
    | none => left; simp [changePassword, hfind, hcur]
    | some current =>
      by_cases hc : comparePassword cfg u current = true
      · cases hnew : body.newPassword with
        | none => left; simp [changePassword, hfind, hcur, hc, hnew]
        | some newPassword =>
          by_cases hlen : jsLength newPassword < 6
          · left; simp [changePassword, hfind, hcur, hc, hnew, hlen]
          · right
            refine ⟨u, if newPassword = u.password then u
              else { u with password := hash newPassword },
              List.mem_of_find?_eq_some hfind, ?_, ?_, ?_, ?_, ?_, ?_⟩
            · split <;> rfl
            · split <;> rfl
            · split <;> rfl
            · split <;> rfl
            · split <;> rfl
            · simp only [changePassword, hfind, hcur, hc, hnew, hlen, Bool.not_true,
                Bool.false_eq_true, if_false]
              exact logAction_users _ _ _ _ _ _ _ _
      · left; simp [changePassword, hfind, hcur, hc]

theorem changePassword_unique (cfg : Config) (hash : String → String) (env : Env) (db : Db)
    (reqUser : User) (req : ReqInfo) (body : PasswordBody) (hu : UniqueAccounts db.users) :
    UniqueAccounts (changePassword cfg hash env db reqUser req body).2.users := by
  rcases changePassword_users cfg hash env db reqUser req body with
    h | ⟨u, new, hmem, h1, h2, h3, _, _, h⟩
  · rw [h]; exact hu
  · rw [h]; exact saveUser_unique _ _ _ _ hu hmem h1 h2 h3

theorem register_unique (hash lower : String → String) (env : Env) (db : Db) (req : ReqInfo)
    (newId : ObjectId) (body : RegisterBody) (hu : UniqueAccounts db.users)
    (hfresh : ∀ u ∈ db.users, u._id ≠ newId) :
    UniqueAccounts (register hash lower env db req newId body).2.users := by
  by_cases h201 : (register hash lower env db req newId body).1.status = 201
  · obtain ⟨hdup, hstep⟩ := register_created hash lower env db req newId body h201
    rw [hstep, logAction_users]
    have hno : ∀ v ∈ db.users,
        v.studentId ≠ (newUser lower env.now newId body).studentId ∧
        v.email ≠ (newUser lower env.now newId body).email := by
      intro v hv
      have hany : ¬ (db.users.any (fun v => v.studentId ==
          (newUser lower env.now newId body).studentId ||
          v.email == (newUser lower env.now newId body).email) = true) := by
        intro hc
        unfold duplicateKey at hdup
        rw [hdup] at hc
        cases hc
      rw [List.any_eq_true] at hany
      constructor
      · intro he; exact hany ⟨v, hv, by simp [he]⟩
      · intro he; exact hany ⟨v, hv, by simp [he]⟩
    obtain ⟨u1, u2, u3⟩ := hu
    refine ⟨?_, ?_, ?_⟩
    · rw [List.map_append, List.nodup_append]
      refine ⟨u1, by simp, ?_⟩
      intro x hx1 hx2
      simp only [List.map_cons, List.map_nil, List.mem_singleton] at hx2
      obtain ⟨v, hv, hvx⟩ := List.mem_map.mp hx1
      exact hfresh v hv (by rw [hvx, hx2]; rfl)
    · rw [List.map_append, List.nodup_append]
      refine ⟨u2, by simp, ?_⟩
      intro x hx1 hx2
      simp only [List.map_cons, List.map_nil, List.mem_singleton] at hx2
      obtain ⟨v, hv, hvx⟩ := List.mem_map.mp hx1
      exact (hno v hv).1 (by rw [hvx, hx2])
    · rw [List.map_append, List.nodup_append]
      refine ⟨u3, by simp, ?_⟩
      intro x hx1 hx2
      simp only [List.map_cons, List.map_nil, List.mem_singleton] at hx2
      obtain ⟨v, hv, hvx⟩ := List.mem_map.mp hx1
      exact (hno v hv).2 (by rw [hvx, hx2])
  · rw [register_refused hash lower env db req newId body h201]; exact hu

/-! ## Registration -/

/-- C24, the claim fails: the identifier of the request is that of a stored
account, its email is that of another account stored before it; the lookup
returns the account with the email and the answer is the email message. -/
theorem C24_identifier_collision_reported_as_email :
    sampleAdmin ∈ sampleDb.users ∧ some sampleAdmin.studentId = sampleRegisterBoth.studentId ∧
    sampleStudent ∈ sampleDb.users ∧ some sampleStudent.email = sampleRegisterBoth.email ∧
    register (fun s => s) sampleLower ⟨100, true⟩ sampleDb sampleReq 9 sampleRegisterBoth =
      (fail 400 "邮箱已被注册", sampleDb) := by
  decide

/-- C24, amended: a registration with its required fields whose identifier or
email is that of a stored account creates nothing and is answered 400 with a
message naming a field that collides: the identifier message only when a
stored account has the identifier, and always when one has it and every
account with the email has it too; the email message only when a stored
account has the email, and always when no stored account has the identifier.
Registration, login and password change keep the stored accounts free of a
shared `_id`, identifier or email (registration with a fresh `_id`). -/
theorem C24_registration_conflict (hash lower : String → String) (env : Env) (db : Db)
    (req : ReqInfo) (newId : ObjectId) (body : RegisterBody) (sid email : String)
    (hsid : body.studentId = some sid) (hemail : body.email = some email)
    (hreq : sid ≠ "" ∧ email ≠ "" ∧ truthy body.password = true ∧ truthy body.name = true)
    (hcoll : ∃ u ∈ db.users, u.studentId = sid ∨ u.email = email) :
    (register hash lower env db req newId body).2 = db ∧
    ((register hash lower env db req newId body).1 = fail 400 "学号已被注册" ∨
      (register hash lower env db req newId body).1 = fail 400 "邮箱已被注册") ∧
    ((register hash lower env db req newId body).1 = fail 400 "学号已被注册" →
      ∃ u ∈ db.users, u.studentId = sid) ∧
    ((register hash lower env db req newId body).1 = fail 400 "邮箱已被注册" →
      ∃ u ∈ db.users, u.email = email ∧ u.studentId ≠ sid) ∧
    ((∃ u ∈ db.users, u.studentId = sid) →
      (∀ u ∈ db.users, u.email = email → u.studentId = sid) →
      (register hash lower env db req newId body).1 = fail 400 "学号已被注册") ∧
    ((∀ u ∈ db.users, u.studentId ≠ sid) →
      (register hash lower env db req newId body).1 = fail 400 "邮箱已被注册") ∧
    (∀ db2 : Db, UniqueAccounts db2.users →
      (∀ (env2 : Env) (req2 : ReqInfo) (newId2 : ObjectId) (body2 : RegisterBody),
        (∀ u ∈ db2.users, u._id ≠ newId2) →
        UniqueAccounts (register hash lower env2 db2 req2 newId2 body2).2.users) ∧
      (∀ (cfg : Config) (env2 : Env) (req2 : ReqInfo) (body2 : LoginBody),
        UniqueAccounts (login cfg env2 db2 req2 body2).2.users) ∧
      (∀ (cfg : Config) (env2 : Env) (reqUser : User) (req2 : ReqInfo) (body2 : PasswordBody),
        UniqueAccounts (changePassword cfg hash env2 db2 reqUser req2 body2).2.users)) := by
  obtain ⟨existing, hmem, hex, _, hstep⟩ :=
    register_conflict hash lower env db req newId body sid email hsid hemail hreq hcoll
  rw [hstep]
  have hmsg : ("学号已被注册" : String) ≠ "邮箱已被注册" := by decide
  refine ⟨rfl, ?_, ?_, ?_, ?_, ?_, ?_⟩
  · by_cases he : existing.studentId = sid
    · left; simp [he]
    · right; simp [he]
  · intro h
    by_cases he : existing.studentId = sid
    · exact ⟨existing, hmem, he⟩
    · simp [he, fail] at h
  · intro h
    by_cases he : existing.studentId = sid
    · simp [he, fail] at h
    · refine ⟨existing, hmem, ?_, he⟩
      rcases hex with h1 | h1
      · exact absurd h1 he
      · exact h1
  · intro _ hall
    have he : existing.studentId = sid := by
      rcases hex with h1 | h1
      · exact h1
      · exact hall existing hmem h1
    simp [he]
  · intro hnone
    simp [hnone existing hmem]
  · intro db2 hu
    refine ⟨?_, ?_, ?_⟩
    · intro env2 req2 newId2 body2 hfresh
      exact register_unique hash lower env2 db2 req2 newId2 body2 hu hfresh
    · intro cfg env2 req2 body2
      exact login_unique cfg env2 db2 req2 body2 hu
    · intro cfg env2 reqUser req2 body2
      exact changePassword_unique cfg hash env2 db2 reqUser req2 body2 hu

theorem C24_registration_conflict_witness :
    (register (fun s => s) sampleLower ⟨100, true⟩ sampleDb sampleReq 9
        ⟨some "20240001", some "secret9", some "Chen", some "new@buct.edu.cn", none, []⟩).2 =
      sampleDb ∧
    (register (fun s => s) sampleLower ⟨100, true⟩ sampleDb sampleReq 9
        ⟨some "20240001", some "secret9", some "Chen", some "new@buct.edu.cn", none, []⟩).1 =
      fail 400 "学号已被注册" :=
  ⟨(C24_registration_conflict (fun s => s) sampleLower ⟨100, true⟩ sampleDb sampleReq 9
      ⟨some "20240001", some "secret9", some "Chen", some "new@buct.edu.cn", none, []⟩
      "20240001" "new@buct.edu.cn" rfl rfl (by decide)
      ⟨sampleStudent, by decide, Or.inl rfl⟩).1,
   by decide⟩

/-- C25: every registration answered 201 appends exactly one account, and that
account has role `student`, `isActive = true`, `loginAttempts = 0` and
`lockUntil` unset, whatever else the body carries. -/
theorem C25_registration_defaults (hash lower : String → String) (env : Env) (db : Db)
    (req : ReqInfo) (newId : ObjectId) (body : RegisterBody)
    (h : (register hash lower env db req newId body).1.status = 201) :
    ∃ u, (register hash lower env db req newId body).2.users = db.users ++ [u] ∧
      u._id = newId ∧ u.role = "student" ∧ u.isActive = true ∧ u.loginAttempts = 0 ∧
      u.lockUntil = none ∧ u.role ≠ "admin" ∧ u.role ≠ "superadmin" := by
  obtain ⟨_, hstep⟩ := register_created hash lower env db req newId body h
  rw [hstep, logAction_users]
  have h1 : ("student" : String) ≠ "admin" := by decide
  have h2 : ("student" : String) ≠ "superadmin" := by decide
  exact ⟨_, rfl, rfl, rfl, rfl, rfl, rfl, h1, h2⟩

theorem C25_registration_defaults_witness :
    ∃ u, (register (fun s => s) sampleLower ⟨100, true⟩ sampleDb sampleReq 9
        sampleRegister).2.users = sampleDb.users ++ [u] ∧
      u._id = 9 ∧ u.role = "student" ∧ u.isActive = true ∧ u.loginAttempts = 0 ∧
      u.lockUntil = none ∧ u.role ≠ "admin" ∧ u.role ≠ "superadmin" :=
  C25_registration_defaults (fun s => s) sampleLower ⟨100, true⟩ sampleDb sampleReq 9
    sampleRegister (by decide)

/-! ## The frame of the status update -/

theorem applyStatusUpdate_frame (now : Time) (reqUser : User) (f : Feedback)
    (body : StatusBody) :
    (applyStatusUpdate now reqUser f body).user = f.user ∧
    (applyStatusUpdate now reqUser f body).category = f.category ∧
    (applyStatusUpdate now reqUser f body).title = f.title ∧
    (applyStatusUpdate now reqUser f body).content = f.content ∧
    (applyStatusUpdate now reqUser f body).priority = f.priority ∧
    (applyStatusUpdate now reqUser f body).isAnonymous = f.isAnonymous ∧
    (applyStatusUpdate now reqUser f body).createdAt = f.createdAt := by
  unfold applyStatusUpdate
  by_cases h1 : truthy body.response = true <;>
    by_cases h2 : body.status = some "resolved" <;> simp [h1, h2]

theorem stampFeedback_frame (now : Time) (old new : Feedback)
    (h : new._id = old._id ∧ new.user = old.user ∧ new.category = old.category ∧
      new.title = old.title ∧ new.content = old.content ∧ new.priority = old.priority ∧
      new.isAnonymous = old.isAnonymous ∧ new.createdAt = old.createdAt) :
    (stampFeedback now old new)._id = old._id ∧
    (stampFeedback now old new).user = old.user ∧
    (stampFeedback now old new).category = old.category ∧
    (stampFeedback now old new).title = old.title ∧
    (stampFeedback now old new).content = old.content ∧
    (stampFeedback now old new).priority = old.priority ∧
    (stampFeedback now old new).isAnonymous = old.isAnonymous ∧
    (stampFeedback now old new).createdAt = old.createdAt := by
  unfold stampFeedback
  by_cases hn : new = old
  · simp [hn]
  · simp only [if_neg hn]
    exact h

/-- What a status update does to the stored tickets. -/
theorem updateStatus_feedbacks (env : Env) (db : Db) (reqUser : User) (req : ReqInfo)
    (id : Option ObjectId) (body : StatusBody) :
    (updateStatus env db reqUser req id body).2 = db ∨
    ∃ i f, id = some i ∧ findById db.feedbacks i = some f ∧
      (updateStatus env db reqUser req id body).2.feedbacks =
        saveFeedback env.now db.feedbacks f (applyStatusUpdate env.now reqUser f body) := by
  by_cases hadmin : reqUser.role = "admin" ∨ reqUser.role = "superadmin"
  · cases id with
    | none => left; simp [updateStatus, adminOnly_admin reqUser hadmin, updateStatusHandler]
    | some i =>
      cases hfind : findById db.feedbacks i with
      | none =>
        left; simp [updateStatus, adminOnly_admin reqUser hadmin, updateStatusHandler, hfind]
      | some f =>
        by_cases hv : validStatus body.status = true
        · right
          refine ⟨i, f, rfl, hfind, ?_⟩
          have hv2 : validStatus (applyStatusUpdate env.now reqUser f body).status = true := by
            rw [applyStatusUpdate_status]; exact hv
          simp only [updateStatus, adminOnly_admin reqUser hadmin, updateStatusHandler, hfind,
            hv2, Bool.not_true, Bool.false_eq_true, if_false]
          exact logAction_feedbacks _ _ _ _ _ _ _ _
        · left
          have hv2 : validStatus body.status = false := by simpa using hv
          rw [updateStatus_refused env db reqUser req i f body hadmin hfind hv2]
  · left
    have hno : reqUser.role ≠ "admin" ∧ reqUser.role ≠ "superadmin" := by
      constructor
      · intro h; exact hadmin (Or.inl h)
      · intro h; exact hadmin (Or.inr h)
    simp [updateStatus, adminOnly, hno.1, hno.2]

/-- C26: a status update (any caller, any body, accepted or refused) leaves as
many tickets as before, each at its position with its `_id`, owner reference,
category, title, content, priority, `isAnonymous` and creation time; every
ticket other than the addressed one is left exactly as it was.  On the
addressed ticket only `status`, `responses`, `resolvedAt` and the store's
modification stamp `updatedAt` can differ. -/
theorem C26_status_update_frame (env : Env) (db : Db) (reqUser : User) (req : ReqInfo)
    (id : Option ObjectId) (body : StatusBody)
    (hids : (db.feedbacks.map (fun f => f._id)).Nodup) :
    (updateStatus env db reqUser req id body).2.feedbacks.length = db.feedbacks.length ∧
    ∀ (k : Nat) (g : Feedback), db.feedbacks[k]? = some g →
      ∃ g1, (updateStatus env db reqUser req id body).2.feedbacks[k]? = some g1 ∧
        g1._id = g._id ∧ g1.user = g.user ∧ g1.category = g.category ∧ g1.title = g.title ∧
        g1.content = g.content ∧ g1.priority = g.priority ∧
        g1.isAnonymous = g.isAnonymous ∧ g1.createdAt = g.createdAt ∧
        (some g._id ≠ id → g1 = g) ∧
        g1 = { g with status := g1.status, responses := g1.responses,
                      resolvedAt := g1.resolvedAt, updatedAt := g1.updatedAt } := by
  rcases updateStatus_feedbacks env db reqUser req id body with h | ⟨i, f, hid, hfind, h⟩
  · rw [h]
    refine ⟨rfl, ?_⟩
    intro k g hk
    exact ⟨g, hk, rfl, rfl, rfl, rfl, rfl, rfl, rfl, rfl, fun _ => rfl, rfl⟩
  · rw [h]
    unfold saveFeedback
    refine ⟨List.length_map _ _, ?_⟩
    intro k g hk
    rw [List.getElem?_map, hk]
    by_cases hg : g._id = f._id
    · have hgm : g ∈ db.feedbacks := List.mem_iff_getElem?.mpr ⟨k, hk⟩
      have hgf : g = f := List.inj_on_of_nodup_map hids hgm (findById_mem hfind) hg
      subst hgf
      obtain ⟨a1, a2, a3, a4, a5, a6, a7⟩ := applyStatusUpdate_frame env.now reqUser g body
      obtain ⟨b0, b1, b2, b3, b4, b5, b6, b7⟩ := stampFeedback_frame env.now g
        (applyStatusUpdate env.now reqUser g body)
        ⟨applyStatusUpdate_id _ _ _ _, a1, a2, a3, a4, a5, a6, a7⟩
      refine ⟨stampFeedback env.now g (applyStatusUpdate env.now reqUser g body), ?_,
        b0, b1, b2, b3, b4, b5, b6, b7, ?_, ?_⟩
      · simp
      · intro hne
        exfalso
        apply hne
        rw [hid, findById_id hfind]
      · generalize stampFeedback env.now g (applyStatusUpdate env.now reqUser g body) = g1
          at b0 b1 b2 b3 b4 b5 b6 b7
        cases g1
        cases g
        simp only at b0 b1 b2 b3 b4 b5 b6 b7
        subst b0 b1 b2 b3 b4 b5 b6 b7
        rfl
    · refine ⟨g, ?_, rfl, rfl, rfl, rfl, rfl, rfl, rfl, rfl, fun _ => rfl, rfl⟩
      simp [hg]

theorem C26_status_update_frame_witness :
    (updateStatus ⟨100, true⟩ sampleDb sampleAdmin sampleReq (some 10)
        ⟨some "resolved", some "done"⟩).2.feedbacks.length = sampleDb.feedbacks.length ∧
    (updateStatus ⟨100, true⟩ sampleDb sampleAdmin sampleReq (some 10)
        ⟨some "resolved", some "done"⟩).2.feedbacks =
      [{ sampleAnonymous with
          status := some "resolved", responses := [⟨"done", 2, "Zhang", 100⟩],
          resolvedAt := some 100, updatedAt := 100 }, sampleSigned] :=
  ⟨(C26_status_update_frame ⟨100, true⟩ sampleDb sampleAdmin sampleReq (some 10)
      ⟨some "resolved", some "done"⟩ (by decide)).1, by decide⟩

/-! ## Audit failures -/

theorem login_audit (cfg : Config) (now : Time) (a b : Bool) (db : Db) (req : ReqInfo)
    (body : LoginBody) :
    (login cfg ⟨now, a⟩ db req body).1 = (login cfg ⟨now, b⟩ db req body).1 ∧
    (login cfg ⟨now, a⟩ db req body).2.users = (login cfg ⟨now, b⟩ db req body).2.users ∧
    (login cfg ⟨now, a⟩ db req body).2.feedbacks =
      (login cfg ⟨now, b⟩ db req body).2.feedbacks := by
  by_cases hreq : (!truthy body.studentId || !truthy body.password) = true
  · simp [login, hreq]
  · cases hfind : findOneByStudentId db.users (body.studentId.getD "") with
    | none => simp [login, hreq, hfind]
    | some u =>
      by_cases hl : isLocked u now = true
      · simp [login, hreq, hfind, hl]
      · by_cases hc : comparePassword cfg u (body.password.getD "") = true
        · simp only [login, hreq, hfind, hl, hc, Bool.not_true, Bool.false_eq_true, if_false]
          refine ⟨?_, ?_, ?_⟩
          · trivial
          · rw [logAction_users, logAction_users]
          · rw [logAction_feedbacks, logAction_feedbacks]
        · simp [login, hreq, hfind, hl, hc]

theorem register_audit (hash lower : String → String) (now : Time) (a b : Bool) (db : Db)
    (req : ReqInfo) (newId : ObjectId) (body : RegisterBody) :
    (register hash lower ⟨now, a⟩ db req newId body).1 =
      (register hash lower ⟨now, b⟩ db req newId body).1 ∧
    (register hash lower ⟨now, a⟩ db req newId body).2.users =
      (register hash lower ⟨now, b⟩ db req newId body).2.users ∧
    (register hash lower ⟨now, a⟩ db req newId body).2.feedbacks =
      (register hash lower ⟨now, b⟩ db req newId body).2.feedbacks := by
  by_cases hreq : (!truthy body.studentId || !truthy body.password || !truthy body.name ||
      !truthy body.email) = true
  · simp [register, hreq]
  · cases hfind : db.users.find? (fun u =>
        some u.studentId == body.studentId || some u.email == body.email) with
    | some existing => simp only [register, hreq, hfind]; simp
    | none =>
      by_cases hval : validUser (newUser lower now newId body) = true
      · by_cases hdup : duplicateKey db.users
            { newUser lower now newId body with
              password := hash (newUser lower now newId body).password } = true
        · simp only [register, hreq, hfind, hval, hdup]; simp
        · simp only [register, hreq, hfind, hval, hdup, Bool.not_true, Bool.false_eq_true,
            if_false]
          refine ⟨?_, ?_, ?_⟩
          · trivial
          · rw [logAction_users, logAction_users]
          · rw [logAction_feedbacks, logAction_feedbacks]
      · simp only [register, hreq, hfind, hval]; simp

theorem changePassword_audit (cfg : Config) (hash : String → String) (now : Time) (a b : Bool)
    (db : Db) (reqUser : User) (req : ReqInfo) (body : PasswordBody) :
    (changePassword cfg hash ⟨now, a⟩ db reqUser req body).1 =
      (changePassword cfg hash ⟨now, b⟩ db reqUser req body).1 ∧
    (changePassword cfg hash ⟨now, a⟩ db reqUser req body).2.users =
      (changePassword cfg hash ⟨now, b⟩ db reqUser req body).2.users ∧
    (changePassword cfg hash ⟨now, a⟩ db reqUser req body).2.feedbacks =
      (changePassword cfg hash ⟨now, b⟩ db reqUser req body).2.feedbacks := by
  cases hfind : findUserById db.users reqUser._id with
  | none => simp [changePassword, hfind]
  | some u =>
    cases hcur : body.currentPassword with
    | none => simp [changePassword, hfind, hcur]
    | some current =>
      by_cases hc : comparePassword cfg u current = true
      · cases hnew : body.newPassword with
        | none => simp [changePassword, hfind, hcur, hc, hnew]
        | some newPassword =>
          by_cases hlen : jsLength newPassword < 6
          · simp [changePassword, hfind, hcur, hc, hnew, hlen]
          · simp only [changePassword, hfind, hcur, hc, hnew, hlen, Bool.not_true,
              Bool.false_eq_true, if_false]
            refine ⟨?_, ?_, ?_⟩
            · trivial
            · rw [logAction_users, logAction_users]
            · rw [logAction_feedbacks, logAction_feedbacks]
      · simp [changePassword, hfind, hcur, hc]

theorem createFeedback_audit (now : Time) (a b : Bool) (db : Db) (reqUser : User)
    (req : ReqInfo) (newId : ObjectId) (body : CreateBody) :
    (createFeedback ⟨now, a⟩ db reqUser req newId body).1 =
      (createFeedback ⟨now, b⟩ db reqUser req newId body).1 ∧
    (createFeedback ⟨now, a⟩ db reqUser req newId body).2.users =
      (createFeedback ⟨now, b⟩ db reqUser req newId body).2.users ∧
    (createFeedback ⟨now, a⟩ db reqUser req newId body).2.feedbacks =
      (createFeedback ⟨now, b⟩ db reqUser req newId body).2.feedbacks := by
  by_cases hreq : (!truthy body.category || !truthy body.title || !truthy body.content) = true
  · simp [createFeedback, hreq]
  · by_cases hval : validFeedback (newFeedback now newId reqUser body) = true
    · simp only [createFeedback, hreq, hval, Bool.not_true, Bool.false_eq_true, if_false]
      refine ⟨?_, ?_, ?_⟩
      · trivial
      · rw [logAction_users, logAction_users]
      · rw [logAction_feedbacks, logAction_feedbacks]
    · simp only [createFeedback, hreq, hval]; simp

theorem updateStatus_audit (now : Time) (a b : Bool) (db : Db) (reqUser : User)
    (req : ReqInfo) (id : Option ObjectId) (body : StatusBody) :
    (updateStatus ⟨now, a⟩ db reqUser req id body).1 =
      (updateStatus ⟨now, b⟩ db reqUser req id body).1 ∧
    (updateStatus ⟨now, a⟩ db reqUser req id body).2.users =
      (updateStatus ⟨now, b⟩ db reqUser req id body).2.users ∧
    (updateStatus ⟨now, a⟩ db reqUser req id body).2.feedbacks =
      (updateStatus ⟨now, b⟩ db reqUser req id body).2.feedbacks := by
  cases hadm : adminOnly reqUser with
  | some res => simp [updateStatus, hadm]
  | none =>
    cases id with
    | none => simp [updateStatus, hadm, updateStatusHandler]
    | some i =>
      cases hfind : findById db.feedbacks i with
      | none => simp [updateStatus, hadm, updateStatusHandler, hfind]
      | some f =>
        by_cases hv : validStatus (applyStatusUpdate now reqUser f body).status = true
        · simp only [updateStatus, hadm, updateStatusHandler, hfind, hv, Bool.not_true,
            Bool.false_eq_true, if_false]
          refine ⟨?_, ?_, ?_⟩
          · trivial
          · rw [logAction_users, logAction_users]
          · rw [logAction_feedbacks, logAction_feedbacks]
        · simp only [updateStatus, hadm, updateStatusHandler, hfind, hv]; simp

/-- C27: for register, login, password change, ticket creation and status
update and every input, the run in which the audit write fails and the run
in which it succeeds give the same response, the same stored accounts and the
same stored tickets. -/
theorem C27_audit_failure_harmless (cfg : Config) (hash lower : String → String) (now : Time)
    (db : Db) (reqUser : User) (req : ReqInfo) (newId : ObjectId) (id : Option ObjectId)
    (registerBody : RegisterBody) (loginBody : LoginBody) (passwordBody : PasswordBody)
    (createBody : CreateBody) (statusBody : StatusBody) :
    ((register hash lower ⟨now, false⟩ db req newId registerBody).1 =
        (register hash lower ⟨now, true⟩ db req newId registerBody).1 ∧
      (register hash lower ⟨now, false⟩ db req newId registerBody).2.users =
        (register hash lower ⟨now, true⟩ db req newId registerBody).2.users ∧
      (register hash lower ⟨now, false⟩ db req newId registerBody).2.feedbacks =
        (register hash lower ⟨now, true⟩ db req newId registerBody).2.feedbacks) ∧
    ((login cfg ⟨now, false⟩ db req loginBody).1 = (login cfg ⟨now, true⟩ db req loginBody).1 ∧
      (login cfg ⟨now, false⟩ db req loginBody).2.users =
        (login cfg ⟨now, true⟩ db req loginBody).2.users ∧
      (login cfg ⟨now, false⟩ db req loginBody).2.feedbacks =
        (login cfg ⟨now, true⟩ db req loginBody).2.feedbacks) ∧
    ((changePassword cfg hash ⟨now, false⟩ db reqUser req passwordBody).1 =
        (changePassword cfg hash ⟨now, true⟩ db reqUser req passwordBody).1 ∧
      (changePassword cfg hash ⟨now, false⟩ db reqUser req passwordBody).2.users =
        (changePassword cfg hash ⟨now, true⟩ db reqUser req passwordBody).2.users ∧
      (changePassword cfg hash ⟨now, false⟩ db reqUser req passwordBody).2.feedbacks =
        (changePassword cfg hash ⟨now, true⟩ db reqUser req passwordBody).2.feedbacks) ∧
    ((createFeedback ⟨now, false⟩ db reqUser req newId createBody).1 =
        (createFeedback ⟨now, true⟩ db reqUser req newId createBody).1 ∧
      (createFeedback ⟨now, false⟩ db reqUser req newId createBody).2.users =
        (createFeedback ⟨now, true⟩ db reqUser req newId createBody).2.users ∧
      (createFeedback ⟨now, false⟩ db reqUser req newId createBody).2.feedbacks =
        (createFeedback ⟨now, true⟩ db reqUser req newId createBody).2.feedbacks) ∧
    ((updateStatus ⟨now, false⟩ db reqUser req id statusBody).1 =
        (updateStatus ⟨now, true⟩ db reqUser req id statusBody).1 ∧
      (updateStatus ⟨now, false⟩ db reqUser req id statusBody).2.users =
        (updateStatus ⟨now, true⟩ db reqUser req id statusBody).2.users ∧
      (updateStatus ⟨now, false⟩ db reqUser req id statusBody).2.feedbacks =
        (updateStatus ⟨now, true⟩ db reqUser req id statusBody).2.feedbacks) :=
  ⟨register_audit hash lower now false true db req newId registerBody,
   login_audit cfg now false true db req loginBody,
   changePassword_audit cfg hash now false true db reqUser req passwordBody,
   createFeedback_audit now false true db reqUser req newId createBody,
   updateStatus_audit now false true db reqUser req id statusBody⟩

/-! ## The failure counter after the lock -/

/-- Saving a document over another account leaves the lookup of an identifier
unchanged when the stored ids are distinct. -/
theorem findOne_saveUser_other (now : Time) (users : List User) (sid : String) (w new : User)
    (hids : (users.map (fun u => u._id)).Nodup) (hw : w ∈ users)
    (hne : w.studentId ≠ sid) (hnew : new.studentId = w.studentId) :
    findOneByStudentId (saveUser now users w new) sid = findOneByStudentId users sid := by
  have hdoc : (stampUser now w new).studentId = w.studentId := by
    unfold stampUser
    by_cases hn : new = w
    · simp [hn]
    · simp [hn, hnew]
  have hmapeq : saveUser now users w new =
      users.map (fun u => if u = w then stampUser now w new else u) := by
    unfold saveUser
    apply List.map_congr_left
    intro u hu
    by_cases hid : u._id = w._id
    · have := List.inj_on_of_nodup_map hids hu hw hid
      simp [hid, this]
    · have hneq : u ≠ w := fun h => hid (by rw [h])
      simp [hid, hneq]
  rw [hmapeq]
  unfold findOneByStudentId
  clear hmapeq hids hw
  induction users with
  | nil => rfl
  | cons x xs ih =>
    rw [List.map_cons]
    by_cases hx : x = w
    · have h1 : (x.studentId == sid) = false := by rw [hx]; simpa using hne
      have h2 : ((stampUser now w new).studentId == sid) = false := by
        rw [hdoc]; simpa using hne
      simp only [if_pos hx, List.find?_cons, h1, h2]
      exact ih
    · simp only [if_neg hx, List.find?_cons]
      cases hp : (x.studentId == sid) with
      | true => rfl
      | false => exact ih

/-- C28: on an account with `loginAttempts` of 5 or more whose `lockUntil`
has passed, one login with a wrong password is answered 401, raises
`loginAttempts` by one (to 6 or more) and sets `lockUntil` to the clock plus
thirty minutes.  And whatever login request is made against a store with
distinct accounts, if the account afterwards has fewer than 5 attempts then
the request was a login for this identifier answered 200. -/
theorem C28_expired_lock_keeps_counter (cfg : Config) (env : Env) (db : Db) (req : ReqInfo)
    (sid pw : String) (u : User) (t : Time)
    (hsid : sid ≠ "") (hpw : pw ≠ "") (hfind : findOneByStudentId db.users sid = some u)
    (hattempts : 5 ≤ u.loginAttempts) (hlock : u.lockUntil = some t) (hpassed : t ≤ env.now)
    (hwrong : cfg.bcryptCompare pw u.password = false) :
    (login cfg env db req ⟨some sid, some pw⟩).1 = fail 401 "学号或密码错误" ∧
    (∃ u1, findOneByStudentId (login cfg env db req ⟨some sid, some pw⟩).2.users sid = some u1 ∧
      u1.loginAttempts = u.loginAttempts + 1 ∧ 6 ≤ u1.loginAttempts ∧
      u1.lockUntil = some (env.now + 30 * 60 * 1000)) ∧
    (UniqueAccounts db.users →
      ∀ (env2 : Env) (req2 : ReqInfo) (body2 : LoginBody) (u2 : User),
        findOneByStudentId (login cfg env2 db req2 body2).2.users sid = some u2 →
        u2.loginAttempts < 5 →
        (login cfg env2 db req2 body2).1.status = 200 ∧ body2.studentId.getD "" = sid) := by
  have hunl : isLocked u env.now = false := by
    simpa [isLocked, hlock] using hpassed
  obtain ⟨hres, u1, hf1, ha1, hl1, _, _⟩ :=
    login_wrong_password cfg ⟨env, req, ⟨some sid, some pw⟩⟩ db sid u hsid hfind hunl
      ⟨⟨rfl, by simp [truthy, hpw]⟩, hwrong⟩
  simp only at hres hf1 hl1
  refine ⟨hres, ⟨u1, hf1, ha1, by rw [ha1]; omega, ?_⟩, ?_⟩
  · rw [hl1, if_pos (by omega)]; rfl
  · intro huniq env2 req2 body2 u2 hf2 hlt
    rcases login_outcome cfg env2 db req2 body2 with h | ⟨w, hw, _, h⟩ | ⟨w, hw, hst, h⟩
    · rw [h.1, hfind] at hf2
      cases hf2
      omega
    · by_cases hsame : body2.studentId.getD "" = sid
      · rw [hsame, hfind] at hw
        cases hw
        rw [h] at hf2
        have hsave := findOne_saveUser env2.now db.users sid u
          ({ u with loginAttempts := u.loginAttempts + 1, lockUntil :=
              if u.loginAttempts + 1 ≥ 5 then some (env2.now + lockDuration)
              else u.lockUntil } : User) hfind
          (show u.studentId = sid from findOne_studentId hfind)
        simp only at hf2
        rw [hsave] at hf2
        cases hf2
        have hne : ¬ ({ u with loginAttempts := u.loginAttempts + 1, lockUntil :=
            if u.loginAttempts + 1 ≥ 5 then some (env2.now + lockDuration)
            else u.lockUntil } : User) = u := by
          intro hc
          have := congrArg User.loginAttempts hc
          simp at this
        rw [stampUser, if_neg hne] at hlt
        simp only at hlt
        omega
      · rw [h] at hf2
        simp only at hf2
        have hother := findOne_saveUser_other env2.now db.users sid w
          ({ w with loginAttempts := w.loginAttempts + 1, lockUntil :=
              if w.loginAttempts + 1 ≥ 5 then some (env2.now + lockDuration)
              else w.lockUntil } : User) huniq.1 (findOne_mem hw)
          (by rw [findOne_studentId hw]; exact hsame) rfl
        rw [hother, hfind] at hf2
        cases hf2
        omega
    · by_cases hsame : body2.studentId.getD "" = sid
      · exact ⟨hst, hsame⟩
      · have hother := findOne_saveUser_other env2.now db.users sid w
          ({ w with loginAttempts := 0, lockUntil := none, lastLogin := some env2.now } : User)
          huniq.1 (findOne_mem hw) (by rw [findOne_studentId hw]; exact hsame) rfl
        rw [h, hother, hfind] at hf2
        cases hf2
        omega

theorem C28_expired_lock_keeps_counter_witness :
    (login sampleConfig ⟨5000, true⟩
        ⟨[{ sampleStudent with loginAttempts := 5, lockUntil := some 2000 }], [], []⟩ sampleReq
        ⟨some "20240001", some "bad"⟩).2.users =
      [{ sampleStudent with loginAttempts := 6, lockUntil := some 1805000, updatedAt := 5000 }] ∧
    (login sampleConfig ⟨5000, true⟩
        ⟨[{ sampleStudent with loginAttempts := 5, lockUntil := some 2000 }], [], []⟩ sampleReq
        ⟨some "20240001", some "bad"⟩).1 = fail 401 "学号或密码错误" :=
  ⟨by decide,
   (C28_expired_lock_keeps_counter sampleConfig ⟨5000, true⟩
    ⟨[{ sampleStudent with loginAttempts := 5, lockUntil := some 2000 }], [], []⟩ sampleReq
    "20240001" "bad" { sampleStudent with loginAttempts := 5, lockUntil := some 2000 } 2000
    (by decide) (by decide) (by decide) (by decide) rfl (by decide) (by decide)).1⟩

/-! ## The owner of a created ticket -/

/-- C29: ticket creation behind the authentication middleware either stores
nothing or appends exactly one ticket whose owner reference is the `_id` of
the account the middleware attached to the request, whatever the body carries
(the handler reads no owner, status, responses or resolution stamp from it). -/
theorem C29_owner_is_caller (cfg : Config) (decode : String → Option Token) (env : Env)
    (db : Db) (authorization : Option String) (req : ReqInfo) (newId : ObjectId)
    (body : CreateBody) :
    (∀ reqUser : User,
      (createFeedback env db reqUser req newId body).2.feedbacks = db.feedbacks ∨
      ((createFeedback env db reqUser req newId body).1.status = 201 ∧
        ∃ f, (createFeedback env db reqUser req newId body).2.feedbacks = db.feedbacks ++ [f] ∧
          f.user = reqUser._id ∧ f.status = some "pending" ∧ f.responses = [] ∧
          f.resolvedAt = none)) ∧
    ((protectedRoute cfg decode env db authorization
        (fun u => createFeedback env db u req newId body)).2.feedbacks = db.feedbacks ∨
      ∃ u f, authenticate cfg decode env db authorization = Except.ok u ∧
        (protectedRoute cfg decode env db authorization
          (fun u => createFeedback env db u req newId body)).2.feedbacks = db.feedbacks ++ [f] ∧
        f.user = u._id) := by
  have hhandler : ∀ reqUser : User,
      (createFeedback env db reqUser req newId body).2.feedbacks = db.feedbacks ∨
      ((createFeedback env db reqUser req newId body).1.status = 201 ∧
        ∃ f, (createFeedback env db reqUser req newId body).2.feedbacks = db.feedbacks ++ [f] ∧
          f.user = reqUser._id ∧ f.status = some "pending" ∧ f.responses = [] ∧
          f.resolvedAt = none) := by
    intro reqUser
    by_cases h201 : (createFeedback env db reqUser req newId body).1.status = 201
    · right
      obtain ⟨_, _, hstep⟩ := createFeedback_created env db reqUser req newId body h201
      refine ⟨h201, newFeedback env.now newId reqUser body, ?_, rfl, rfl, rfl, rfl⟩
      rw [hstep]; exact logAction_feedbacks _ _ _ _ _ _ _ _
    · left
      rw [(createFeedback_refused env db reqUser req newId body h201).2]
  refine ⟨hhandler, ?_⟩
  cases hauth : authenticate cfg decode env db authorization with
  | error r => left; simp [protectedRoute, hauth]
  | ok u =>
    have hroute : protectedRoute cfg decode env db authorization
        (fun u => createFeedback env db u req newId body) =
        createFeedback env db u req newId body := by
      simp [protectedRoute, hauth]
    rw [hroute]
    rcases hhandler u with h | ⟨_, f, hf, hu, _⟩
    · left; exact h
    · right; exact ⟨u, f, rfl, hf, hu⟩

end FeedbackSystem
